import Mathlib

/-! LibVMI address translation and process resolution

A shallow embedding of `libvmi/memory.c` and `libvmi/os/windows/memory.c`.

* Machine integers are natural numbers; every conversion to a fixed width is
  an explicit reduction (`u32`, `u64`, `ulong`).
* The driver layer, the pid cache and the kernel-object walks are not part of
  these two files.  They are fields of `World`; the code only queries them.
* Every function that performs an external call returns a `Run`: its C return
  value together with the ordered list of `Event`s it produced (external
  calls, debug output, and entry markers of the functions whose invocation
  the specification talks about).
* An early `return` of the source is the `then` branch of a conditional whose
  `else` branch is the rest of the function body.
-/

namespace LibVMI

/-! ## Machine integers -/

/-- Conversion to `uint32_t`. -/
def u32 (x : Nat) : Nat := x % 2 ^ 32

/-- Conversion to `uint64_t`. -/
def u64 (x : Nat) : Nat := x % 2 ^ 64

/-- Conversion of a mathematical integer to `uint64_t` (two's complement),
used where `int` operands meet an `addr_t`. -/
def u64i (x : Int) : Nat := (x % 2 ^ 64).toNat

/-- C logical negation `!x` on an `int`. -/
def lnot (x : Int) : Int := if x = 0 then 1 else 0

/-- The value of `sizeof(uint32_t)`. -/
def sizeof_uint32_t : Nat := 4

/-- The value of `sizeof(uint64_t)`. -/
def sizeof_uint64_t : Nat := 8

/-! ## Declarations of the headers (`libvmi.h`, `private.h`) -/

/-- Values of the constants and widths that the two files use but that are
declared in headers outside them.  Any encoding is admitted as long as the
two status codes differ, the two OS tags differ, and `unsigned long` has at
least the 32 bits the C standard guarantees. -/
structure Consts where
  VMI_SUCCESS : Int
  VMI_FAILURE : Int
  VMI_OS_LINUX : Int
  VMI_OS_WINDOWS : Int
  ULONG_BITS : Nat
  status_distinct : VMI_SUCCESS ≠ VMI_FAILURE
  os_distinct : VMI_OS_LINUX ≠ VMI_OS_WINDOWS
  ulong_min : 32 ≤ ULONG_BITS

/-- Conversion to `unsigned long`. -/
def ulong (c : Consts) (x : Nat) : Nat := x % 2 ^ c.ULONG_BITS

/-- The Windows profile `windows_instance_t` (the fields these files read). -/
structure windows_instance where
  ntoskrnl_va : Nat
  pid_offset : Int
  tasks_offset : Int
  pdbase_offset : Int

/-- The session handle `vmi_instance_t` (the fields these files read).
`os_data = none` is the NULL pointer. -/
structure vmi_instance where
  pae : Int
  os_type : Int
  kpgd : Nat
  os_data : Option windows_instance

/-- Outcome of an external call with an output buffer: the returned status
and the content of the buffer once the call has returned. -/
structure ReadResult where
  status : Int
  value : Nat

/-- Everything outside the two files: guest memory as seen through the
driver, the CR3 register, the pid cache, and the kernel-object walks. -/
structure World where
  read_32_ma : Nat → ReadResult
  read_64_ma : Nat → ReadResult
  read_addr_va : Nat → Int → ReadResult
  read_32_va : Nat → Int → ReadResult
  get_vcpureg_cr3 : ReadResult
  pid_cache : Int → Option Nat
  linux_pid_to_pgd : Int → Nat
  windows_find_eprocess_list_pid : Int → Nat
  windows_find_eprocess_list_pgd : Nat → Nat
  windows_kpcr_lookup : String → ReadResult
  windows_export_to_rva : Nat → String → ReadResult
  linux_system_map_symbol_to_address : String → ReadResult
  windows_symbol_to_address : String → ReadResult

/-! ## Observable behaviour -/

/-- Argument of a formatted debug message. -/
inductive Arg where
  | u (n : Nat)
  | i (n : Int)
  | s (str : String)
  deriving DecidableEq, Repr

/-- Functions of the two files whose invocation is recorded. -/
inductive Fn where
  | buffalo_nopae
  | v2p_nopae
  | v2p_pae
  | vmi_pagetable_lookup
  | windows_pid_to_pgd
  | windows_pgd_to_pid
  deriving DecidableEq, Repr

/-- One observable step of an execution. -/
inductive Event where
  | dbprint (fmt : String) (args : List Arg)
  | errprint (fmt : String) (args : List Arg)
  | enter (fn : Fn)
  | vmi_read_32_ma (paddr : Nat)
  | vmi_read_64_ma (paddr : Nat)
  | vmi_read_addr_va (vaddr : Nat) (pid : Int)
  | vmi_read_32_va (vaddr : Nat) (pid : Int)
  | driver_get_vcpureg
  | vmi_check_pid_cache (pid : Int)
  | vmi_update_pid_cache (pid : Int) (pgd : Nat)
  | linux_pid_to_pgd (pid : Int)
  | windows_find_eprocess_list_pid (pid : Int)
  | windows_find_eprocess_list_pgd (pgd : Nat)
  | windows_kpcr_lookup (symbol : String)
  | windows_export_to_rva (base : Nat) (symbol : String)
  | linux_system_map_symbol_to_address (symbol : String)
  | windows_symbol_to_address (symbol : String)
  deriving DecidableEq, Repr

/-- The result of running a function: its return value and what it did. -/
structure Run (α : Type) where
  val : α
  trace : List Event

/-- Sequencing: the second computation runs after the first. -/
def Run.bind {α β : Type} (m : Run α) (f : α → Run β) : Run β :=
  ⟨(f m.val).val, m.trace ++ (f m.val).trace⟩

instance : Monad Run where
  pure a := ⟨a, []⟩
  bind := Run.bind

/-- Record one event. -/
def emit (e : Event) : Run Unit := ⟨(), [e]⟩

/-- The debug-print macro `dbprint`. -/
def dbprint (fmt : String) (args : List Arg) : Run Unit := emit (Event.dbprint fmt args)

/-- The error-print macro `errprint`. -/
def errprint (fmt : String) (args : List Arg) : Run Unit := emit (Event.errprint fmt args)

/-- Is the event a read of guest memory by machine address (a page-table read)? -/
def Event.isMaRead : Event → Bool
  | Event.vmi_read_32_ma _ => true
  | Event.vmi_read_64_ma _ => true
  | _ => false

/-- Is the event a read of guest memory by virtual address? -/
def Event.isVaRead : Event → Bool
  | Event.vmi_read_addr_va _ _ => true
  | Event.vmi_read_32_va _ _ => true
  | _ => false

/-- Is the event an insertion into the pid cache? -/
def Event.isCacheUpdate : Event → Bool
  | Event.vmi_update_pid_cache _ _ => true
  | _ => false

/-- Is the event the output of a debug message? -/
def Event.isDbprint : Event → Bool
  | Event.dbprint _ _ => true
  | _ => false

/-- The page-table reads of a trace, in order. -/
def maReads (t : List Event) : List Event := t.filter Event.isMaRead

/-- The virtual-address reads of a trace, in order. -/
def vaReads (t : List Event) : List Event := t.filter Event.isVaRead

/-! ## External calls -/

/-- The driver read `vmi_read_32_ma` into a `uint32_t` buffer. -/
def vmi_read_32_ma (w : World) (paddr : Nat) : Run ReadResult := do
  emit (Event.vmi_read_32_ma paddr)
  return ⟨(w.read_32_ma paddr).status, u32 (w.read_32_ma paddr).value⟩

/-- The driver read `vmi_read_64_ma` into a `uint64_t` buffer. -/
def vmi_read_64_ma (w : World) (paddr : Nat) : Run ReadResult := do
  emit (Event.vmi_read_64_ma paddr)
  return ⟨(w.read_64_ma paddr).status, u64 (w.read_64_ma paddr).value⟩

/-- The virtual-address read `vmi_read_addr_va` into an `addr_t` buffer. -/
def vmi_read_addr_va (w : World) (vaddr : Nat) (pid : Int) : Run ReadResult := do
  emit (Event.vmi_read_addr_va vaddr pid)
  return ⟨(w.read_addr_va vaddr pid).status, u64 (w.read_addr_va vaddr pid).value⟩

/-- The virtual-address read `vmi_read_32_va` into a 32-bit buffer. -/
def vmi_read_32_va (w : World) (vaddr : Nat) (pid : Int) : Run ReadResult := do
  emit (Event.vmi_read_32_va vaddr pid)
  return ⟨(w.read_32_va vaddr pid).status, u32 (w.read_32_va vaddr pid).value⟩

/-- The register read `driver_get_vcpureg(vmi, &cr3, CR3, 0)`. -/
def driver_get_vcpureg (w : World) : Run ReadResult := do
  emit Event.driver_get_vcpureg
  return ⟨w.get_vcpureg_cr3.status, u64 w.get_vcpureg_cr3.value⟩

/-- Modelled from the spec: `vmi_check_pid_cache`, the lookup of the external
pid cache ("lookup(pid) -> base or miss").  A hit returns non-zero and stores
the cached base in the `uint32_t` buffer; a miss returns zero and leaves the
buffer as it was. -/
def vmi_check_pid_cache (w : World) (pid : Int) (pgd : Nat) : Run (Int × Nat) := do
  emit (Event.vmi_check_pid_cache pid)
  match w.pid_cache pid with
  | some b => return (1, u32 b)
  | none => return (0, pgd)

/-- Modelled from the spec: the effect of one external call on the world.
Reads, register access, cache lookup and the kernel-object walks are queries;
only "insert(pid, base)" changes the cache. -/
def World.after (w : World) : Event → World
  | Event.vmi_update_pid_cache pid pgd =>
      { w with pid_cache := fun p => if p = pid then some pgd else w.pid_cache p }
  | _ => w

/-- The world after a whole trace has happened. -/
def World.replay (w : World) : List Event → World
  | [] => w
  | e :: t => (w.after e).replay t

/-! ## `libvmi/memory.c` -/

/-- Modelled from the spec: `vmi_get_bit`, declared outside the two files
("test whether bit n of an integer is set"); it yields the C truth value
1 or 0. -/
def vmi_get_bit (reg : Nat) (bit : Nat) : Nat := if reg.testBit bit then 1 else 0

/-- Modelled from the spec: `get_reg32`, the macro that takes the low 32 bits
of a register value (the table base register is used as a 32-bit base). -/
def get_reg32 (r : Nat) : Nat := u32 r

/-- `entry_present`: bit 0 of the entry, passed as `unsigned long`. -/
def entry_present (entry : Nat) : Nat := vmi_get_bit entry 0

/-- `page_size_flag`: bit 7 of the entry, passed as `unsigned long`. -/
def page_size_flag (entry : Nat) : Nat := vmi_get_bit entry 7

/-- `get_pdptb`: base of the page directory pointer table. -/
def get_pdptb (pdpr : Nat) : Nat := pdpr &&& 0xFFFFFFE0

/-- `pdpi_index`: byte offset of the page-directory-pointer entry. -/
def pdpi_index (pdpi : Nat) : Nat := u32 ((pdpi >>> 30) * sizeof_uint64_t)

/-- `get_pdpi`: read the page-directory-pointer entry; the status of the read
is not inspected. -/
def get_pdpi (w : World) (vaddr : Nat) (cr3 : Nat) : Run Nat := do
  let pdpi_entry := u32 (get_pdptb cr3 + pdpi_index vaddr)
  dbprint "--PTLookup: pdpi_entry = 0x%.8x\n" [Arg.u pdpi_entry]
  let r ← vmi_read_64_ma w pdpi_entry
  return r.value

/-- `pgd_index`: byte offset of the directory entry, by paging mode. -/
def pgd_index (vmi : vmi_instance) (address : Nat) : Nat :=
  if lnot vmi.pae ≠ 0 then
    u32 (((address >>> 22) &&& 0x3FF) * sizeof_uint32_t)
  else
    u32 (((address >>> 21) &&& 0x1FF) * sizeof_uint64_t)

/-- `pdba_base_nopae`. -/
def pdba_base_nopae (pdpe : Nat) : Nat := pdpe &&& 0xFFFFF000

/-- `pdba_base_pae`. -/
def pdba_base_pae (pdpe : Nat) : Nat := pdpe &&& 0xFFFFFF000

/-- `get_pgd_nopae`: read the 32-bit directory entry. -/
def get_pgd_nopae (w : World) (vmi : vmi_instance) (vaddr : Nat) (pdpe : Nat) : Run Nat := do
  let pgd_entry := u32 (pdba_base_nopae pdpe + pgd_index vmi vaddr)
  dbprint "--PTLookup: pgd_entry = 0x%.8x\n" [Arg.u pgd_entry]
  let r ← vmi_read_32_ma w pgd_entry
  return r.value

/-- `get_pgd_pae`: read the 64-bit directory entry; its address is held in a
`uint32_t`. -/
def get_pgd_pae (w : World) (vmi : vmi_instance) (vaddr : Nat) (pdpe : Nat) : Run Nat := do
  let pgd_entry := u32 (u64 (pdba_base_pae pdpe + pgd_index vmi vaddr))
  dbprint "--PTLookup: pgd_entry = 0x%.8x\n" [Arg.u pgd_entry]
  let r ← vmi_read_64_ma w pgd_entry
  return r.value

/-- `pte_index`: byte offset of the leaf entry, by paging mode. -/
def pte_index (vmi : vmi_instance) (address : Nat) : Nat :=
  if lnot vmi.pae ≠ 0 then
    u32 (((address >>> 12) &&& 0x3FF) * sizeof_uint32_t)
  else
    u32 (((address >>> 12) &&& 0x1FF) * sizeof_uint64_t)

/-- `ptba_base_nopae`. -/
def ptba_base_nopae (pde : Nat) : Nat := pde &&& 0xFFFFF000

/-- `ptba_base_pae`. -/
def ptba_base_pae (pde : Nat) : Nat := pde &&& 0xFFFFFF000

/-- `get_pte_nopae`: read the 32-bit leaf entry. -/
def get_pte_nopae (w : World) (vmi : vmi_instance) (vaddr : Nat) (pgd : Nat) : Run Nat := do
  let pte_entry := u32 (ptba_base_nopae pgd + pte_index vmi vaddr)
  dbprint "--PTLookup: pte_entry = 0x%.8x\n" [Arg.u pte_entry]
  let r ← vmi_read_32_ma w pte_entry
  return r.value

/-- `get_pte_pae`: read the 64-bit leaf entry; its address is held in a
`uint32_t`. -/
def get_pte_pae (w : World) (vmi : vmi_instance) (vaddr : Nat) (pgd : Nat) : Run Nat := do
  let pte_entry := u32 (u64 (ptba_base_pae pgd + pte_index vmi vaddr))
  dbprint "--PTLookup: pte_entry = 0x%.8x\n" [Arg.u pte_entry]
  let r ← vmi_read_64_ma w pte_entry
  return r.value

/-- `pte_pfn_nopae`. -/
def pte_pfn_nopae (pte : Nat) : Nat := pte &&& 0xFFFFF000

/-- `pte_pfn_pae`. -/
def pte_pfn_pae (pte : Nat) : Nat := pte &&& 0xFFFFFF000

/-- `get_paddr_nopae`. -/
def get_paddr_nopae (vaddr : Nat) (pte : Nat) : Nat :=
  pte_pfn_nopae pte ||| (vaddr &&& 0xFFF)

/-- `get_paddr_pae` (a `uint64_t`). -/
def get_paddr_pae (vaddr : Nat) (pte : Nat) : Nat :=
  pte_pfn_pae pte ||| (vaddr &&& 0xFFF)

/-- `get_large_paddr`: the directory entry arrives as a `uint32_t`. -/
def get_large_paddr (vmi : vmi_instance) (vaddr : Nat) (pgd_entry : Nat) : Nat :=
  if lnot vmi.pae ≠ 0 then
    (pgd_entry &&& 0xFFC00000) ||| (vaddr &&& 0x3FFFFF)
  else
    (pgd_entry &&& 0xFFE00000) ||| (vaddr &&& 0x1FFFFF)

/-- `get_transition_bit`. -/
def get_transition_bit (entry : Nat) : Nat := vmi_get_bit entry 11

/-- `get_prototype_bit`. -/
def get_prototype_bit (entry : Nat) : Nat := vmi_get_bit entry 10

/-- `buffalo_nopae`: the classifier of non-present entries.  The guard is the
source's `!instance->os_type == VMI_OS_WINDOWS`, negation applied first. -/
def buffalo_nopae (c : Consts) (vmi : vmi_instance) (entry : Nat) (pde : Int) : Run Unit := do
  emit (Event.enter Fn.buffalo_nopae)
  if lnot vmi.os_type = c.VMI_OS_WINDOWS then
    return ()
  else if get_transition_bit entry = 0 ∧ get_prototype_bit entry = 0 then
    let pfnum := (entry >>> 1) &&& 0xF
    let pfframe := entry &&& 0xFFFFF000
    if pfnum ≠ 0 ∧ pfframe ≠ 0 then
      dbprint "--Buffalo: page file = %d, frame = 0x%.8x\n" [Arg.u pfnum, Arg.u pfframe]
    else if pfnum = 0 ∧ pfframe = 0 then
      dbprint "--Buffalo: demand zero page\n" []
    else
      return ()
  else if get_transition_bit entry ≠ 0 ∧ get_prototype_bit entry = 0 then
    dbprint "--Buffalo: page in transition\n" []
  else if lnot pde ≠ 0 ∧ get_prototype_bit entry ≠ 0 then
    dbprint "--Buffalo: prototype entry\n" []
  else if entry = 0 then
    dbprint "--Buffalo: entry is zero\n" []
  else
    dbprint "--Buffalo: unknown\n" []

/-- `v2p_nopae`: the two-level walk. -/
def v2p_nopae (w : World) (c : Consts) (vmi : vmi_instance) (cr3 : Nat) (vaddr : Nat) :
    Run Nat := do
  emit (Event.enter Fn.v2p_nopae)
  let paddr := 0
  dbprint "--PTLookup: lookup vaddr = 0x%.8x\n" [Arg.u vaddr]
  dbprint "--PTLookup: cr3 = 0x%.8x\n" [Arg.u cr3]
  let pgd ← get_pgd_nopae w vmi vaddr (get_reg32 cr3)
  dbprint "--PTLookup: pgd = 0x%.8x\n" [Arg.u pgd]
  let paddr ←
    if entry_present (ulong c pgd) ≠ 0 then
      if page_size_flag (ulong c pgd) ≠ 0 then do
        let paddr := get_large_paddr vmi vaddr pgd
        dbprint "--PTLookup: 4MB page\n" [Arg.u pgd]
        pure paddr
      else do
        let pte ← get_pte_nopae w vmi vaddr pgd
        dbprint "--PTLookup: pte = 0x%.8x\n" [Arg.u pte]
        if entry_present (ulong c pte) ≠ 0 then
          pure (get_paddr_nopae vaddr pte)
        else do
          buffalo_nopae c vmi pte 1
          pure paddr
    else do
      buffalo_nopae c vmi pgd 0
      pure paddr
  dbprint "--PTLookup: paddr = 0x%.8x\n" [Arg.u paddr]
  return paddr

/-- `v2p_pae`: the three-level walk; the result is a `uint32_t`. -/
def v2p_pae (w : World) (c : Consts) (vmi : vmi_instance) (cr3 : Nat) (vaddr : Nat) :
    Run Nat := do
  emit (Event.enter Fn.v2p_pae)
  let paddr := 0
  dbprint "--PTLookup: lookup vaddr = 0x%.8x\n" [Arg.u vaddr]
  dbprint "--PTLookup: cr3 = 0x%.8x\n" [Arg.u cr3]
  let pdpe ← get_pdpi w vaddr (get_reg32 cr3)
  dbprint "--PTLookup: pdpe = 0x%.16x\n" [Arg.u pdpe]
  if entry_present (ulong c pdpe) = 0 then
    return paddr
  else do
    let pgd ← get_pgd_pae w vmi vaddr pdpe
    dbprint "--PTLookup: pgd = 0x%.16x\n" [Arg.u pgd]
    let paddr ←
      if entry_present (ulong c pgd) ≠ 0 then
        if page_size_flag (ulong c pgd) ≠ 0 then do
          let paddr := get_large_paddr vmi vaddr (u32 pgd)
          dbprint "--PTLookup: 2MB page\n" []
          pure paddr
        else do
          let pte ← get_pte_pae w vmi vaddr pgd
          dbprint "--PTLookup: pte = 0x%.16x\n" [Arg.u pte]
          if entry_present (ulong c pte) ≠ 0 then
            pure (u32 (get_paddr_pae vaddr pte))
          else
            pure paddr
      else
        pure paddr
    dbprint "--PTLookup: paddr = 0x%.8x\n" [Arg.u paddr]
    return paddr

/-- `vmi_pagetable_lookup`: dispatch on the paging mode. -/
def vmi_pagetable_lookup (w : World) (c : Consts) (vmi : vmi_instance) (cr3 : Nat)
    (vaddr : Nat) : Run Nat := do
  emit (Event.enter Fn.vmi_pagetable_lookup)
  if vmi.pae ≠ 0 then
    v2p_pae w c vmi cr3 vaddr
  else
    v2p_nopae w c vmi cr3 vaddr

/-- `vmi_translate_kv2p`: kernel-space translation; `virt_address` is
converted to the `uint32_t` parameter of the lookup. -/
def vmi_translate_kv2p (w : World) (c : Consts) (vmi : vmi_instance) (virt_address : Nat) :
    Run Nat := do
  let r ← driver_get_vcpureg w
  let cr3 := r.value
  if cr3 = 0 then
    dbprint "--early bail on v2p lookup because cr3 is zero\n" []
    return 0
  else
    vmi_pagetable_lookup w c vmi cr3 (u32 virt_address)

/-! ## External kernel-object walks and symbol lookups -/

/-- The external Linux process-list walk `linux_pid_to_pgd`. -/
def linux_pid_to_pgd (w : World) (pid : Int) : Run Nat := do
  emit (Event.linux_pid_to_pgd pid)
  return w.linux_pid_to_pgd pid

/-- The external process-list search `windows_find_eprocess_list_pid`; it
returns the address of the matching object's linkage field as an `addr_t`,
or zero. -/
def windows_find_eprocess_list_pid (w : World) (pid : Int) : Run Nat := do
  emit (Event.windows_find_eprocess_list_pid pid)
  return u64 (w.windows_find_eprocess_list_pid pid)

/-- The external process-list search `windows_find_eprocess_list_pgd`. -/
def windows_find_eprocess_list_pgd (w : World) (pgd : Nat) : Run Nat := do
  emit (Event.windows_find_eprocess_list_pgd pgd)
  return u64 (w.windows_find_eprocess_list_pgd pgd)

/-- The external lookup `windows_kpcr_lookup(vmi, symbol, address)`. -/
def windows_kpcr_lookup (w : World) (symbol : String) : Run ReadResult := do
  emit (Event.windows_kpcr_lookup symbol)
  return ⟨(w.windows_kpcr_lookup symbol).status, u64 (w.windows_kpcr_lookup symbol).value⟩

/-- The external lookup `windows_export_to_rva(vmi, base, 0, symbol, address)`. -/
def windows_export_to_rva (w : World) (base : Nat) (symbol : String) : Run ReadResult := do
  emit (Event.windows_export_to_rva base symbol)
  return ⟨(w.windows_export_to_rva base symbol).status,
    u64 (w.windows_export_to_rva base symbol).value⟩

/-- The external lookup `linux_system_map_symbol_to_address`. -/
def linux_system_map_symbol_to_address (w : World) (symbol : String) : Run ReadResult := do
  emit (Event.linux_system_map_symbol_to_address symbol)
  return ⟨(w.linux_system_map_symbol_to_address symbol).status,
    u64 (w.linux_system_map_symbol_to_address symbol).value⟩

/-- The external lookup `windows_symbol_to_address`. -/
def windows_symbol_to_address (w : World) (symbol : String) : Run ReadResult := do
  emit (Event.windows_symbol_to_address symbol)
  return ⟨(w.windows_symbol_to_address symbol).status,
    u64 (w.windows_symbol_to_address symbol).value⟩

/-! ## `libvmi/os/windows/memory.c` -/

/-- Reinterpretation of a 32-bit buffer as the signed `vmi_pid_t`. -/
def i32 (x : Nat) : Int := if x % 2 ^ 32 < 2 ^ 31 then (x % 2 ^ 32 : Nat) else (x % 2 ^ 32 : Nat) - 2 ^ 32

/-- What `windows_kernel_symbol_to_address` leaves behind: its status and the
contents of its two output parameters (`none` for a NULL
`kernel_base_address`). -/
structure SymbolResult where
  status : Int
  kernel_base_address : Option Nat
  address : Nat

/-- `windows_kernel_symbol_to_address`: KPCR lookup first, export table second. -/
def windows_kernel_symbol_to_address (w : World) (c : Consts) (vmi : vmi_instance)
    (symbol : String) (kernel_base_address : Option Nat) (address : Nat) : Run SymbolResult := do
  match vmi.os_data with
  | none => return ⟨c.VMI_FAILURE, kernel_base_address, address⟩
  | some windows =>
    let _cr3 ←
      if vmi.kpgd ≠ 0 then
        pure vmi.kpgd
      else do
        let r ← driver_get_vcpureg w
        pure r.value
    dbprint "--windows symbol lookup (%s)\n" [Arg.s symbol]
    let kernel_base_address :=
      match kernel_base_address with
      | some _ => some windows.ntoskrnl_va
      | none => none
    let k ← windows_kpcr_lookup w symbol
    if c.VMI_SUCCESS = k.status then
      dbprint "--got symbol from kpcr (%s --> 0x%PRIx64).\n" [Arg.s symbol, Arg.u k.value]
      return ⟨c.VMI_SUCCESS, kernel_base_address, k.value⟩
    else
      dbprint "--kpcr lookup failed, trying kernel PE export table\n" []
      let e ← windows_export_to_rva w windows.ntoskrnl_va symbol
      if c.VMI_SUCCESS = e.status then
        let rva := e.value
        let address := u64 (windows.ntoskrnl_va + rva)
        dbprint "--got symbol from PE export table (%s --> 0x%.16PRIx64).\n"
          [Arg.s symbol, Arg.u address]
        return ⟨c.VMI_SUCCESS, kernel_base_address, address⟩
      else
        dbprint "--kernel PE export table failed, nothing left to try\n" []
        return ⟨c.VMI_FAILURE, kernel_base_address, e.value⟩

/-- `windows_pid_to_pgd`: the result is an `addr_t`; the offsets are the
values of the `int` locals loaded from the profile, and the address of the
read is computed in `addr_t` arithmetic. -/
def windows_pid_to_pgd (w : World) (c : Consts) (vmi : vmi_instance) (pid : Int) : Run Nat := do
  emit (Event.enter Fn.windows_pid_to_pgd)
  let pgd := 0
  match vmi.os_data with
  | none => return u64i c.VMI_FAILURE
  | some windows =>
    let _pid_offset := windows.pid_offset
    let tasks_offset := windows.tasks_offset
    let pdbase_offset := windows.pdbase_offset
    let eprocess ← windows_find_eprocess_list_pid w pid
    if eprocess = 0 then
      errprint "Could not find EPROCESS struct for pid = %d.\n" [Arg.i pid]
      return pgd
    else
      let r ← vmi_read_addr_va w (u64i (eprocess + pdbase_offset - tasks_offset)) 0
      return r.value

/-- `windows_pgd_to_pid`: the result is a `vmi_pid_t`. -/
def windows_pgd_to_pid (w : World) (c : Consts) (vmi : vmi_instance) (pgd : Nat) : Run Int := do
  emit (Event.enter Fn.windows_pgd_to_pid)
  let pid : Int := -1
  match vmi.os_data with
  | none => return c.VMI_FAILURE
  | some windows =>
    let tasks_offset := windows.tasks_offset
    let pid_offset := windows.pid_offset
    let eprocess ← windows_find_eprocess_list_pgd w pgd
    if eprocess = 0 then
      errprint "Could not find EPROCESS struct for pgd = 0x%PRIx64.\n" [Arg.u pgd]
      return pid
    else
      let r ← vmi_read_32_va w (u64i (eprocess + pid_offset - tasks_offset)) 0
      return i32 r.value

/-! ## `libvmi/memory.c`, process resolution -/

/-- `vmi_pid_to_pgd`: cache first, then the walk of the configured OS; the
local `pgd` is a `uint32_t`. -/
def vmi_pid_to_pgd (w : World) (c : Consts) (vmi : vmi_instance) (pid : Int) : Run Nat := do
  let pgd := 0
  let r ← vmi_check_pid_cache w pid pgd
  let pgd := r.2
  if r.1 ≠ 0 then
    return pgd
  else if c.VMI_OS_LINUX = vmi.os_type then
    let p ← linux_pid_to_pgd w pid
    return u32 p
  else if c.VMI_OS_WINDOWS = vmi.os_type then
    let p ← windows_pid_to_pgd w c vmi pid
    return u32 p
  else
    return pgd

/-- `vmi_translate_uv2p`: user-space translation. -/
def vmi_translate_uv2p (w : World) (c : Consts) (vmi : vmi_instance) (virt_address : Nat)
    (pid : Int) : Run Nat := do
  let pgd ← vmi_pid_to_pgd w c vmi pid
  if pgd = 0 then
    dbprint "--early bail on v2p lookup because pgd is zero\n" []
    return 0
  else
    vmi_pagetable_lookup w c vmi pgd (u32 virt_address)

/-- `vmi_translate_ksym2v`: kernel symbol to address. -/
def vmi_translate_ksym2v (w : World) (c : Consts) (vmi : vmi_instance) (symbol : String) :
    Run Nat := do
  let ret := 0
  if c.VMI_OS_LINUX = vmi.os_type then
    let r ← linux_system_map_symbol_to_address w symbol
    if c.VMI_FAILURE = r.status then
      return 0
    else
      return r.value
  else if c.VMI_OS_WINDOWS = vmi.os_type then
    let r ← windows_symbol_to_address w symbol
    if c.VMI_FAILURE = r.status then
      return 0
    else
      return r.value
  else
    return ret

/-! ## The process-list walks -/

/-- Modelled from the spec: the process-ID field of the process object whose
linkage field is at `link`, as a walk reads it.  The object's base is
`link - tasks_offset` and the field is read, in kernel context, at that base
plus `pid_offset`, as a 32-bit `vmi_pid_t`. -/
def eprocess_pid (w : World) (win : windows_instance) (link : Nat) : Int :=
  i32 (vmi_read_32_va w (u64i (link - win.tasks_offset + win.pid_offset)) 0).val.value

/-- Modelled from the spec: the page-directory-base field of the process
object whose linkage field is at `link`, read in kernel context at
`link - tasks_offset + pdbase_offset` as an `addr_t`. -/
def eprocess_pdbase (w : World) (win : windows_instance) (link : Nat) : Nat :=
  (vmi_read_addr_va w (u64i (link - win.tasks_offset + win.pdbase_offset)) 0).val.value

/-- Modelled from the spec: `windows_find_eprocess_list_pid`, which is not in
the two files.  `links` are the addresses of the linkage fields of the process
objects in the order in which one full traversal of the circular list from its
head meets them; the walk compares each object's process-ID field with the
query and yields the linkage-field address of the first match, or zero when the
traversal has returned to the head without a match. -/
def find_eprocess_list_pid (w : World) (win : windows_instance) : List Nat → Int → Nat
  | [], _ => 0
  | link :: rest, pid =>
    if eprocess_pid w win link = pid then link else find_eprocess_list_pid w win rest pid

/-- Modelled from the spec: `windows_find_eprocess_list_pgd`, which is not in
the two files; the same walk, comparing the page-directory-base field. -/
def find_eprocess_list_pgd (w : World) (win : windows_instance) : List Nat → Nat → Nat
  | [], _ => 0
  | link :: rest, pgd =>
    if eprocess_pdbase w win link = pgd then link else find_eprocess_list_pgd w win rest pgd

/-- The world `w` in which the two searches are the walks over the process
list `links`; guest memory is that of `w`. -/
def withProcessList (w : World) (win : windows_instance) (links : List Nat) : World :=
  { w with
    windows_find_eprocess_list_pid := find_eprocess_list_pid w win links
    windows_find_eprocess_list_pgd := find_eprocess_list_pgd w win links }

/-! ## Concrete inputs used by the witnesses -/

/-- An admissible encoding of the constants: status codes 0 and 1, OS tags 1
and 2, a 64-bit `unsigned long`. -/
def c0 : Consts :=
  { VMI_SUCCESS := 0, VMI_FAILURE := 1, VMI_OS_LINUX := 1, VMI_OS_WINDOWS := 2,
    ULONG_BITS := 64,
    status_distinct := by decide, os_distinct := by decide, ulong_min := by decide }

/-- A non-PAE Windows instance without a profile. -/
def vmiNoPae : vmi_instance := { pae := 0, os_type := 2, kpgd := 0, os_data := none }

/-- A PAE Windows instance without a profile. -/
def vmiPae : vmi_instance := { pae := 1, os_type := 2, kpgd := 0, os_data := none }

/-- A world in which every external call fails and leaves zero behind. -/
def emptyWorld : World :=
  { read_32_ma := fun _ => ⟨1, 0⟩
    read_64_ma := fun _ => ⟨1, 0⟩
    read_addr_va := fun _ _ => ⟨1, 0⟩
    read_32_va := fun _ _ => ⟨1, 0⟩
    get_vcpureg_cr3 := ⟨1, 0⟩
    pid_cache := fun _ => none
    linux_pid_to_pgd := fun _ => 0
    windows_find_eprocess_list_pid := fun _ => 0
    windows_find_eprocess_list_pgd := fun _ => 0
    windows_kpcr_lookup := fun _ => ⟨1, 0⟩
    windows_export_to_rva := fun _ _ => ⟨1, 0⟩
    linux_system_map_symbol_to_address := fun _ => ⟨1, 0⟩
    windows_symbol_to_address := fun _ => ⟨1, 0⟩ }

/-- Memory with a page directory at `0x39000` whose entry 2 points to the page
table at `0x00123000`, whose entry 1 is `0x00456001`. -/
def world4k : World :=
  { emptyWorld with
    read_32_ma := fun a =>
      if a = 0x39008 then ⟨0, 0x00123001⟩
      else if a = 0x00123004 then ⟨0, 0x00456001⟩
      else ⟨1, 0⟩ }

/-- Memory with a page directory at `0x39000` whose entry 1 is the 4 MiB
mapping `0x00400081`. -/
def worldLarge : World :=
  { emptyWorld with
    read_32_ma := fun a => if a = 0x39004 then ⟨0, 0x00400081⟩ else ⟨1, 0⟩ }

/-- PAE memory: pointer table at `0x39000` whose entry 0 points to the
directory at `0x5A000`, whose entry 1 is the 2 MiB mapping
`0x8000000012E00081`. -/
def worldPaeLarge : World :=
  { emptyWorld with
    read_64_ma := fun a =>
      if a = 0x39000 then ⟨0, 0x0005A001⟩
      else if a = 0x5A008 then ⟨0, 0x8000000012E00081⟩
      else ⟨1, 0⟩ }

/-- Memory with a page directory at `0x39000` whose entry 2 is the
non-present value `0x00123C00`. -/
def worldAbsent : World :=
  { emptyWorld with
    read_32_ma := fun a => if a = 0x39008 then ⟨0, 0x00123C00⟩ else ⟨1, 0⟩ }

/-- PAE memory whose pointer-table entry 3 is the non-present value
`0x0005A000`, while every other entry looks present. -/
def worldPaeAbsent : World :=
  { emptyWorld with
    read_64_ma := fun a => if a = 0x39018 then ⟨0, 0x0005A000⟩ else ⟨0, 0x00777001⟩ }

/-- The 4 KiB memory image with CR3 reading `0x39000`. -/
def worldKernel : World := { world4k with get_vcpureg_cr3 := ⟨0, 0x39000⟩ }

/-- A Windows profile with `tasks_offset = 0x88` and `pdbase_offset = 0x18`. -/
def winProfile : windows_instance :=
  { ntoskrnl_va := 0x804D7000, pid_offset := 0x84, tasks_offset := 0x88, pdbase_offset := 0x18 }

/-- A non-PAE Windows instance with the profile `winProfile`. -/
def vmiWin : vmi_instance := { pae := 0, os_type := 2, kpgd := 0, os_data := some winProfile }

/-- A non-PAE Linux instance. -/
def vmiLinux : vmi_instance := { pae := 0, os_type := 1, kpgd := 0, os_data := none }

/-- The 4 KiB memory image with an empty pid cache and a process list in which
pid 4 has its linkage field at `0x81234088` and its page-directory base
`0x39000` stored at `0x81234018`. -/
def worldProc : World :=
  { world4k with
    windows_find_eprocess_list_pid := fun pid => if pid = 4 then 0x81234088 else 0
    read_addr_va := fun a p => if a = 0x81234018 ∧ p = 0 then ⟨0, 0x39000⟩ else ⟨1, 0⟩ }

/-- As `worldProc`, but the eight bytes at `0x81234018` hold `0x100039000`. -/
def worldProcWide : World :=
  { worldProc with
    read_addr_va := fun a p => if a = 0x81234018 ∧ p = 0 then ⟨0, 0x100039000⟩ else ⟨1, 0⟩ }

/-- As `worldProc`, but the pid cache already maps pid 4 to `0x39000`. -/
def worldCached : World :=
  { worldProc with pid_cache := fun p => if p = 4 then some 0x39000 else none }

/-- As `world4k`, but the read of the directory entry at `0x39008` reports
failure (status 1) while its output buffer holds `0x00123001`. -/
def worldFailedRead : World :=
  { emptyWorld with
    read_32_ma := fun a =>
      if a = 0x39008 then ⟨1, 0x00123001⟩
      else if a = 0x00123004 then ⟨0, 0x00456001⟩
      else ⟨1, 0⟩ }

/-- A world in which the KPCR lookup knows `KdVersionBlock` and the export
table of the kernel at `0x804D7000` knows `PsInitialSystemProcess`. -/
def worldSymbols : World :=
  { emptyWorld with
    windows_kpcr_lookup := fun s => if s = "KdVersionBlock" then ⟨0, 0x8054C038⟩ else ⟨1, 0⟩
    windows_export_to_rva := fun b s =>
      if b = 0x804D7000 ∧ s = "PsInitialSystemProcess" then ⟨0, 0x0008B9B4⟩ else ⟨1, 0⟩ }

/-- PAE memory for a 4 KiB page: pointer table at `0x39000` (entry 0 names the
directory base `0x10005A000`, above 4 GiB), the entry read at `0x5A020` points
to the table at `0x00123000`, and leaf entry 1 is `0xF00456001`, a frame above
4 GiB. -/
def worldPae4k : World :=
  { emptyWorld with
    read_64_ma := fun a =>
      if a = 0x39000 then ⟨0, 0x10005A001⟩
      else if a = 0x5A020 then ⟨0, 0x00123001⟩
      else if a = 0x00123008 then ⟨0, 0xF00456001⟩
      else ⟨1, 0⟩ }

/-- Guest memory of a synthetic process list laid out by `winProfile`: the
object with linkage field at `0x81234088` has pid 4 and base `0x39000`, the
object with linkage field at `0x81300088` has pid 1234 and base `0x7A000`. -/
def worldList : World :=
  { emptyWorld with
    read_32_va := fun a p =>
      if a = 0x81234084 ∧ p = 0 then ⟨0, 4⟩
      else if a = 0x81300084 ∧ p = 0 then ⟨0, 1234⟩
      else ⟨1, 0⟩
    read_addr_va := fun a p =>
      if a = 0x81234018 ∧ p = 0 then ⟨0, 0x39000⟩
      else if a = 0x81300018 ∧ p = 0 then ⟨0, 0x7A000⟩
      else ⟨1, 0⟩ }

/-- The linkage fields of the synthetic process list, in traversal order. -/
def listLinks : List Nat := [0x81234088, 0x81300088]

/-! ## Auxiliary facts -/

@[simp] theorem Run.pure_val {α : Type} (a : α) : (pure a : Run α).val = a := rfl

@[simp] theorem Run.pure_trace {α : Type} (a : α) : (pure a : Run α).trace = [] := rfl

@[simp] theorem Run.bind_val {α β : Type} (m : Run α) (f : α → Run β) :
    (m >>= f).val = (f m.val).val := rfl

@[simp] theorem Run.bind_trace {α β : Type} (m : Run α) (f : α → Run β) :
    (m >>= f).trace = m.trace ++ (f m.val).trace := rfl

@[simp] theorem emit_trace (e : Event) : (emit e).trace = [e] := rfl

@[simp] theorem dbprint_trace (fmt : String) (args : List Arg) :
    (dbprint fmt args).trace = [Event.dbprint fmt args] := rfl

theorem testBit_ulong (c : Consts) (x i : Nat) (hi : i < 32) :
    (ulong c x).testBit i = x.testBit i := by
  have h := c.ulong_min
  simp only [ulong, Nat.testBit_mod_two_pow]
  have : i < c.ULONG_BITS := by omega
  simp [this]

theorem entry_present_ulong (c : Consts) (x : Nat) :
    entry_present (ulong c x) ≠ 0 ↔ x.testBit 0 = true := by
  simp only [entry_present, vmi_get_bit, testBit_ulong c x 0 (by decide)]
  cases x.testBit 0 <;> simp

theorem entry_absent_ulong (c : Consts) (x : Nat) :
    entry_present (ulong c x) = 0 ↔ x.testBit 0 = false := by
  simp only [entry_present, vmi_get_bit, testBit_ulong c x 0 (by decide)]
  cases x.testBit 0 <;> simp

theorem page_size_flag_ulong (c : Consts) (x : Nat) :
    page_size_flag (ulong c x) ≠ 0 ↔ x.testBit 7 = true := by
  simp only [page_size_flag, vmi_get_bit, testBit_ulong c x 7 (by decide)]
  cases x.testBit 7 <;> simp

theorem and_mask_mod32 (x m : Nat) (hm : m < 2 ^ 32) : (x % 2 ^ 32) &&& m = x &&& m := by
  apply Nat.eq_of_testBit_eq
  intro i
  simp only [Nat.testBit_and, Nat.testBit_mod_two_pow]
  by_cases hi : i < 32
  · simp [hi]
  · have : m.testBit i = false := by
      apply Nat.testBit_lt_two_pow
      exact lt_of_lt_of_le hm (Nat.pow_le_pow_right (by decide) (by omega))
    simp [this]

theorem pgd_index_nopae (vmi : vmi_instance) (a : Nat) (hpae : vmi.pae = 0) :
    pgd_index vmi a = ((a >>> 22) &&& 0x3FF) * 4 := by
  have hb : (a >>> 22) &&& 0x3FF ≤ 0x3FF := Nat.and_le_right
  simp only [pgd_index, lnot, hpae, u32, sizeof_uint32_t]
  simp only [if_true, ne_eq, one_ne_zero, not_false_eq_true]
  omega

theorem pte_index_nopae (vmi : vmi_instance) (a : Nat) (hpae : vmi.pae = 0) :
    pte_index vmi a = ((a >>> 12) &&& 0x3FF) * 4 := by
  have hb : (a >>> 12) &&& 0x3FF ≤ 0x3FF := Nat.and_le_right
  simp only [pte_index, lnot, hpae, u32, sizeof_uint32_t]
  simp only [if_true, ne_eq, one_ne_zero, not_false_eq_true]
  omega

theorem pgd_addr_nopae (vmi : vmi_instance) (cr3 vaddr : Nat) (hpae : vmi.pae = 0) :
    u32 (pdba_base_nopae (get_reg32 cr3) + pgd_index vmi vaddr) =
      (cr3 &&& 0xFFFFF000) + ((vaddr >>> 22) &&& 0x3FF) * 4 := by
  have hb : (vaddr >>> 22) &&& 0x3FF ≤ 0x3FF := Nat.and_le_right
  have hc : cr3 &&& 0xFFFFF000 ≤ 0xFFFFF000 := Nat.and_le_right
  rw [pgd_index_nopae vmi vaddr hpae]
  simp only [pdba_base_nopae, get_reg32]
  rw [show u32 cr3 = cr3 % 2 ^ 32 from rfl, and_mask_mod32 cr3 0xFFFFF000 (by decide)]
  simp only [u32]
  omega

theorem pte_addr_nopae (vmi : vmi_instance) (pgd vaddr : Nat) (hpae : vmi.pae = 0) :
    u32 (ptba_base_nopae pgd + pte_index vmi vaddr) =
      (pgd &&& 0xFFFFF000) + ((vaddr >>> 12) &&& 0x3FF) * 4 := by
  have hb : (vaddr >>> 12) &&& 0x3FF ≤ 0x3FF := Nat.and_le_right
  have hc : pgd &&& 0xFFFFF000 ≤ 0xFFFFF000 := Nat.and_le_right
  rw [pte_index_nopae vmi vaddr hpae]
  simp only [ptba_base_nopae, u32]
  omega

theorem pdpi_addr (cr3 vaddr : Nat) (hv : vaddr < 2 ^ 32) :
    u32 (get_pdptb (get_reg32 cr3) + pdpi_index vaddr) =
      (cr3 &&& 0xFFFFFFE0) + (vaddr >>> 30) * 8 := by
  have hc : cr3 &&& 0xFFFFFFE0 ≤ 0xFFFFFFE0 := Nat.and_le_right
  have hs : vaddr >>> 30 < 4 := by
    rw [Nat.shiftRight_eq_div_pow]
    omega
  simp only [get_pdptb, get_reg32, pdpi_index, sizeof_uint64_t]
  rw [show u32 cr3 = cr3 % 2 ^ 32 from rfl, and_mask_mod32 cr3 0xFFFFFFE0 (by decide)]
  simp only [u32]
  omega

theorem pgd_index_pae (vmi : vmi_instance) (a : Nat) (hpae : vmi.pae ≠ 0) :
    pgd_index vmi a = ((a >>> 21) &&& 0x1FF) * 8 := by
  have hb : (a >>> 21) &&& 0x1FF ≤ 0x1FF := Nat.and_le_right
  simp only [pgd_index, lnot, hpae, u32, sizeof_uint64_t]
  simp only [if_false, ne_eq, not_true_eq_false]
  omega

theorem pgd_addr_pae (vmi : vmi_instance) (pdpe vaddr : Nat) (hpae : vmi.pae ≠ 0) :
    u32 (u64 (pdba_base_pae pdpe + pgd_index vmi vaddr)) =
      ((pdpe &&& 0xFFFFFF000) + ((vaddr >>> 21) &&& 0x1FF) * 8) % 2 ^ 32 := by
  have hb : (vaddr >>> 21) &&& 0x1FF ≤ 0x1FF := Nat.and_le_right
  have hc : pdpe &&& 0xFFFFFF000 ≤ 0xFFFFFF000 := Nat.and_le_right
  rw [pgd_index_pae vmi vaddr hpae]
  simp only [pdba_base_pae, u32, u64]
  omega

theorem get_large_paddr_nopae (vmi : vmi_instance) (vaddr e : Nat) (hpae : vmi.pae = 0) :
    get_large_paddr vmi vaddr e = (e &&& 0xFFC00000) ||| (vaddr &&& 0x3FFFFF) := by
  simp [get_large_paddr, lnot, hpae]

theorem get_large_paddr_pae (vmi : vmi_instance) (vaddr e : Nat) (hpae : vmi.pae ≠ 0) :
    get_large_paddr vmi vaddr (u32 e) = (e &&& 0xFFE00000) ||| (vaddr &&& 0x1FFFFF) := by
  simp only [get_large_paddr, lnot, hpae, if_false, ne_eq, not_true_eq_false]
  rw [show u32 e = e % 2 ^ 32 from rfl, and_mask_mod32 e 0xFFE00000 (by decide)]

theorem Run.ext_iff2 {α : Type} (a b : Run α) : a = b ↔ a.val = b.val ∧ a.trace = b.trace := by
  cases a
  cases b
  simp

theorem vmi_check_pid_cache_hit (w : World) (pid : Int) (pgd b : Nat)
    (h : w.pid_cache pid = some b) :
    vmi_check_pid_cache w pid pgd = ⟨(1, u32 b), [Event.vmi_check_pid_cache pid]⟩ := by
  simp only [vmi_check_pid_cache, h]
  rfl

theorem vmi_check_pid_cache_miss (w : World) (pid : Int) (pgd : Nat)
    (h : w.pid_cache pid = none) :
    vmi_check_pid_cache w pid pgd = ⟨(0, pgd), [Event.vmi_check_pid_cache pid]⟩ := by
  simp only [vmi_check_pid_cache, h]
  rfl

theorem windows_pid_to_pgd_null (w : World) (c : Consts) (vmi : vmi_instance) (pid : Int)
    (hd : vmi.os_data = none) :
    windows_pid_to_pgd w c vmi pid =
      ⟨u64i c.VMI_FAILURE, [Event.enter Fn.windows_pid_to_pgd]⟩ := by
  simp only [windows_pid_to_pgd, hd]
  rfl

theorem windows_pid_to_pgd_not_found (w : World) (c : Consts) (vmi : vmi_instance) (pid : Int)
    (win : windows_instance) (hd : vmi.os_data = some win)
    (h0 : (windows_find_eprocess_list_pid w pid).val = 0) :
    windows_pid_to_pgd w c vmi pid =
      ⟨0, [Event.enter Fn.windows_pid_to_pgd, Event.windows_find_eprocess_list_pid pid,
        Event.errprint "Could not find EPROCESS struct for pid = %d.\n" [Arg.i pid]]⟩ := by
  rw [Run.ext_iff2]
  simp only [windows_pid_to_pgd, hd, Run.bind_val, Run.bind_trace, h0, reduceIte]
  exact ⟨rfl, rfl⟩

theorem windows_pid_to_pgd_found (w : World) (c : Consts) (vmi : vmi_instance) (pid : Int)
    (win : windows_instance) (hd : vmi.os_data = some win)
    (hne : (windows_find_eprocess_list_pid w pid).val ≠ 0) :
    windows_pid_to_pgd w c vmi pid =
      ⟨(vmi_read_addr_va w (u64i ((windows_find_eprocess_list_pid w pid).val +
          win.pdbase_offset - win.tasks_offset)) 0).val.value,
        [Event.enter Fn.windows_pid_to_pgd, Event.windows_find_eprocess_list_pid pid,
         Event.vmi_read_addr_va (u64i ((windows_find_eprocess_list_pid w pid).val +
          win.pdbase_offset - win.tasks_offset)) 0]⟩ := by
  rw [Run.ext_iff2]
  simp only [windows_pid_to_pgd, hd, Run.bind_val, Run.bind_trace, hne, reduceIte]
  exact ⟨rfl, rfl⟩

theorem vmi_pid_to_pgd_hit (w : World) (c : Consts) (vmi : vmi_instance) (pid : Int) (b : Nat)
    (h : w.pid_cache pid = some b) :
    vmi_pid_to_pgd w c vmi pid = ⟨u32 b, [Event.vmi_check_pid_cache pid]⟩ := by
  rw [Run.ext_iff2]
  simp only [vmi_pid_to_pgd, vmi_check_pid_cache_hit w pid 0 b h, Run.bind_val, Run.bind_trace,
    ne_eq, one_ne_zero, not_false_eq_true, reduceIte]
  exact ⟨rfl, rfl⟩

theorem vmi_pid_to_pgd_linux (w : World) (c : Consts) (vmi : vmi_instance) (pid : Int)
    (h : w.pid_cache pid = none) (hos : c.VMI_OS_LINUX = vmi.os_type) :
    vmi_pid_to_pgd w c vmi pid =
      ⟨u32 (linux_pid_to_pgd w pid).val,
        [Event.vmi_check_pid_cache pid, Event.linux_pid_to_pgd pid]⟩ := by
  rw [Run.ext_iff2]
  simp only [vmi_pid_to_pgd, vmi_check_pid_cache_miss w pid 0 h, Run.bind_val, Run.bind_trace,
    ne_eq, not_true_eq_false, hos, reduceIte]
  exact ⟨rfl, rfl⟩

theorem vmi_pid_to_pgd_windows (w : World) (c : Consts) (vmi : vmi_instance) (pid : Int)
    (h : w.pid_cache pid = none) (hos : c.VMI_OS_WINDOWS = vmi.os_type) :
    vmi_pid_to_pgd w c vmi pid =
      ⟨u32 (windows_pid_to_pgd w c vmi pid).val,
        Event.vmi_check_pid_cache pid :: (windows_pid_to_pgd w c vmi pid).trace⟩ := by
  have hl : ¬ c.VMI_OS_LINUX = vmi.os_type := by
    rw [← hos]
    exact c.os_distinct
  rw [Run.ext_iff2]
  simp only [vmi_pid_to_pgd, vmi_check_pid_cache_miss w pid 0 h, Run.bind_val, Run.bind_trace,
    ne_eq, not_true_eq_false, hos, hl, reduceIte]
  exact ⟨rfl, by simp⟩

theorem vmi_pid_to_pgd_other (w : World) (c : Consts) (vmi : vmi_instance) (pid : Int)
    (h : w.pid_cache pid = none) (hl : ¬ c.VMI_OS_LINUX = vmi.os_type)
    (hw : ¬ c.VMI_OS_WINDOWS = vmi.os_type) :
    vmi_pid_to_pgd w c vmi pid = ⟨0, [Event.vmi_check_pid_cache pid]⟩ := by
  rw [Run.ext_iff2]
  simp only [vmi_pid_to_pgd, vmi_check_pid_cache_miss w pid 0 h, Run.bind_val, Run.bind_trace,
    ne_eq, not_true_eq_false, hl, hw, reduceIte]
  exact ⟨rfl, rfl⟩

/-- The events that the process resolution can produce. -/
theorem vmi_pid_to_pgd_trace (w : World) (c : Consts) (vmi : vmi_instance) (pid : Int) :
    ∀ e ∈ (vmi_pid_to_pgd w c vmi pid).trace,
      e.isCacheUpdate = false ∧ e.isMaRead = false ∧
        e ≠ Event.enter Fn.vmi_pagetable_lookup := by
  intro e he
  have key : ∀ e ∈ (windows_pid_to_pgd w c vmi pid).trace,
      e.isCacheUpdate = false ∧ e.isMaRead = false ∧
        e ≠ Event.enter Fn.vmi_pagetable_lookup := by
    intro e he
    cases hd : vmi.os_data with
    | none =>
      rw [windows_pid_to_pgd_null w c vmi pid hd] at he
      simp at he
      subst he
      simp [Event.isCacheUpdate, Event.isMaRead]
    | some win =>
      by_cases h0 : (windows_find_eprocess_list_pid w pid).val = 0
      · rw [windows_pid_to_pgd_not_found w c vmi pid win hd h0] at he
        simp at he
        rcases he with he | he | he <;> subst he <;> simp [Event.isCacheUpdate, Event.isMaRead]
      · rw [windows_pid_to_pgd_found w c vmi pid win hd h0] at he
        simp at he
        rcases he with he | he | he <;> subst he <;> simp [Event.isCacheUpdate, Event.isMaRead]
  cases hc : w.pid_cache pid with
  | some b =>
    rw [vmi_pid_to_pgd_hit w c vmi pid b hc] at he
    simp at he
    subst he
    simp [Event.isCacheUpdate, Event.isMaRead]
  | none =>
    by_cases hl : c.VMI_OS_LINUX = vmi.os_type
    · rw [vmi_pid_to_pgd_linux w c vmi pid hc hl] at he
      simp at he
      rcases he with he | he <;> subst he <;> simp [Event.isCacheUpdate, Event.isMaRead]
    · by_cases hw : c.VMI_OS_WINDOWS = vmi.os_type
      · rw [vmi_pid_to_pgd_windows w c vmi pid hc hw] at he
        simp at he
        rcases he with he | he
        · subst he
          simp [Event.isCacheUpdate, Event.isMaRead]
        · exact key e he
      · rw [vmi_pid_to_pgd_other w c vmi pid hc hl hw] at he
        simp at he
        subst he
        simp [Event.isCacheUpdate, Event.isMaRead]

theorem replay_eq_self (w : World) (t : List Event) (h : ∀ e ∈ t, e.isCacheUpdate = false) :
    w.replay t = w := by
  induction t with
  | nil => rfl
  | cons e t ih =>
    have he : w.after e = w := by
      have h1 := h e (List.mem_cons_self _ _)
      cases e <;> first | rfl | simp [Event.isCacheUpdate] at h1
    simp only [World.replay, he]
    exact ih (fun x hx => h x (List.mem_cons_of_mem _ hx))

theorem buffalo_nopae_enter (c : Consts) (vmi : vmi_instance) (entry : Nat) (pde : Int) :
    Event.enter Fn.buffalo_nopae ∈ (buffalo_nopae c vmi entry pde).trace := by
  simp only [buffalo_nopae, Run.bind_trace, emit_trace]
  simp

theorem buffalo_guard (c : Consts) (vmi : vmi_instance) (hos : vmi.os_type = c.VMI_OS_WINDOWS) :
    lnot vmi.os_type ≠ c.VMI_OS_WINDOWS := by
  unfold lnot
  by_cases h0 : vmi.os_type = 0
  · rw [if_pos h0, ← hos, h0]
    exact one_ne_zero
  · rw [if_neg h0, ← hos]
    exact fun h => h0 h.symm

theorem get_transition_bit_eq_zero (e : Nat) : get_transition_bit e = 0 ↔ e.testBit 11 = false := by
  simp only [get_transition_bit, vmi_get_bit]
  cases e.testBit 11 <;> simp

theorem get_prototype_bit_eq_zero (e : Nat) : get_prototype_bit e = 0 ↔ e.testBit 10 = false := by
  simp only [get_prototype_bit, vmi_get_bit]
  cases e.testBit 10 <;> simp

/-- What the classifier does on a Windows instance, as one expression in the
bits of the entry. -/
theorem buffalo_nopae_classify (c : Consts) (vmi : vmi_instance) (e : Nat) (pde : Int)
    (hg : lnot vmi.os_type ≠ c.VMI_OS_WINDOWS) :
    (buffalo_nopae c vmi e pde).trace =
      Event.enter Fn.buffalo_nopae ::
        (if e.testBit 11 = false ∧ e.testBit 10 = false then
          (if (e >>> 1) &&& 0xF ≠ 0 ∧ e &&& 0xFFFFF000 ≠ 0 then
            [Event.dbprint "--Buffalo: page file = %d, frame = 0x%.8x\n"
              [Arg.u ((e >>> 1) &&& 0xF), Arg.u (e &&& 0xFFFFF000)]]
          else if (e >>> 1) &&& 0xF = 0 ∧ e &&& 0xFFFFF000 = 0 then
            [Event.dbprint "--Buffalo: demand zero page\n" []]
          else [])
        else if e.testBit 11 = true ∧ e.testBit 10 = false then
          [Event.dbprint "--Buffalo: page in transition\n" []]
        else if pde = 0 ∧ e.testBit 10 = true then
          [Event.dbprint "--Buffalo: prototype entry\n" []]
        else if e = 0 then
          [Event.dbprint "--Buffalo: entry is zero\n" []]
        else
          [Event.dbprint "--Buffalo: unknown\n" []]) := by
  have hl : lnot pde ≠ 0 ↔ pde = 0 := by
    unfold lnot
    by_cases h : pde = 0 <;> simp [h]
  have ht : get_transition_bit e ≠ 0 ↔ e.testBit 11 = true := by
    rw [ne_eq, get_transition_bit_eq_zero]
    cases e.testBit 11 <;> simp
  have hp : get_prototype_bit e ≠ 0 ↔ e.testBit 10 = true := by
    rw [ne_eq, get_prototype_bit_eq_zero]
    cases e.testBit 10 <;> simp
  simp only [buffalo_nopae, Run.bind_trace, emit_trace, hg, reduceIte, List.singleton_append,
    get_transition_bit_eq_zero, get_prototype_bit_eq_zero, hl, ht, hp]
  congr 1
  split_ifs <;> rfl

theorem buffalo_nopae_early (c : Consts) (vmi : vmi_instance) (e : Nat) (pde : Int)
    (hg : lnot vmi.os_type = c.VMI_OS_WINDOWS) :
    (buffalo_nopae c vmi e pde).trace = [Event.enter Fn.buffalo_nopae] := by
  simp only [buffalo_nopae, Run.bind_trace, emit_trace, hg, reduceIte, Run.pure_trace,
    List.append_nil]

theorem buffalo_nopae_no_read (c : Consts) (vmi : vmi_instance) (e : Nat) (pde : Int) :
    maReads (buffalo_nopae c vmi e pde).trace = [] := by
  by_cases hg : lnot vmi.os_type = c.VMI_OS_WINDOWS
  · rw [buffalo_nopae_early c vmi e pde hg]
    rfl
  · rw [buffalo_nopae_classify c vmi e pde hg]
    split_ifs <;> rfl

theorem maReads_append (s t : List Event) : maReads (s ++ t) = maReads s ++ maReads t := by
  simp [maReads]

theorem maReads_cons (e : Event) (t : List Event) :
    maReads (e :: t) = if e.isMaRead = true then e :: maReads t else maReads t := by
  simp only [maReads, List.filter_cons]

theorem maReads_nil : maReads [] = [] := rfl

theorem get_pgd_nopae_values (w w2 : World) (vmi : vmi_instance) (vaddr pdpe : Nat)
    (h : ∀ a, (w.read_32_ma a).value = (w2.read_32_ma a).value) :
    get_pgd_nopae w vmi vaddr pdpe = get_pgd_nopae w2 vmi vaddr pdpe := by
  rw [Run.ext_iff2]
  constructor <;> simp [get_pgd_nopae, vmi_read_32_ma, h]

theorem get_pte_nopae_values (w w2 : World) (vmi : vmi_instance) (vaddr pgd : Nat)
    (h : ∀ a, (w.read_32_ma a).value = (w2.read_32_ma a).value) :
    get_pte_nopae w vmi vaddr pgd = get_pte_nopae w2 vmi vaddr pgd := by
  rw [Run.ext_iff2]
  constructor <;> simp [get_pte_nopae, vmi_read_32_ma, h]

theorem pte_index_pae (vmi : vmi_instance) (a : Nat) (hpae : vmi.pae ≠ 0) :
    pte_index vmi a = ((a >>> 12) &&& 0x1FF) * 8 := by
  have hb : (a >>> 12) &&& 0x1FF ≤ 0x1FF := Nat.and_le_right
  simp only [pte_index, lnot, hpae, u32, sizeof_uint64_t]
  simp only [if_false, ne_eq, not_true_eq_false]
  omega

theorem pte_addr_pae (vmi : vmi_instance) (pgd vaddr : Nat) (hpae : vmi.pae ≠ 0) :
    u32 (u64 (ptba_base_pae pgd + pte_index vmi vaddr)) =
      ((pgd &&& 0xFFFFFF000) + ((vaddr >>> 12) &&& 0x1FF) * 8) % 2 ^ 32 := by
  have hb : (vaddr >>> 12) &&& 0x1FF ≤ 0x1FF := Nat.and_le_right
  have hc : pgd &&& 0xFFFFFF000 ≤ 0xFFFFFF000 := Nat.and_le_right
  rw [pte_index_pae vmi vaddr hpae]
  simp only [ptba_base_pae, u32, u64]
  omega

/-- A frame part with clear low `k` bits or-ed with an offset part whose mask
covers the low `k` bits keeps the low `k` bits of the offset. -/
theorem or_mask_mod (x v hi lo k : Nat) (hhi : hi % 2 ^ k = 0) (hlo : lo % 2 ^ k = 2 ^ k - 1) :
    ((x &&& hi) ||| (v &&& lo)) % 2 ^ k = v % 2 ^ k := by
  apply Nat.eq_of_testBit_eq
  intro i
  simp only [Nat.testBit_mod_two_pow, Nat.testBit_or, Nat.testBit_and]
  by_cases hik : i < k
  · have h1 : (hi % 2 ^ k).testBit i = false := by
      rw [hhi]
      exact Nat.zero_testBit i
    have h2 : (lo % 2 ^ k).testBit i = true := by
      rw [hlo, Nat.testBit_two_pow_sub_one]
      exact decide_eq_true hik
    simp only [Nat.testBit_mod_two_pow, hik, decide_True, Bool.true_and] at h1 h2
    simp [hik, h1, h2]
  · simp [hik]

theorem v2p_nopae_val (w : World) (c : Consts) (vmi : vmi_instance) (cr3 vaddr : Nat) :
    (v2p_nopae w c vmi cr3 vaddr).val =
      if (get_pgd_nopae w vmi vaddr (get_reg32 cr3)).val.testBit 0 = true then
        if (get_pgd_nopae w vmi vaddr (get_reg32 cr3)).val.testBit 7 = true then
          get_large_paddr vmi vaddr (get_pgd_nopae w vmi vaddr (get_reg32 cr3)).val
        else if (get_pte_nopae w vmi vaddr
            (get_pgd_nopae w vmi vaddr (get_reg32 cr3)).val).val.testBit 0 = true then
          get_paddr_nopae vaddr
            (get_pte_nopae w vmi vaddr (get_pgd_nopae w vmi vaddr (get_reg32 cr3)).val).val
        else 0
      else 0 := by
  simp only [v2p_nopae, Run.bind_val, Run.pure_val, entry_present_ulong, page_size_flag_ulong]
  split_ifs <;>
    simp only [Run.bind_val, Run.pure_val, *, reduceIte, not_true_eq_false, Bool.false_eq_true,
      Bool.true_eq_false]

theorem v2p_pae_val (w : World) (c : Consts) (vmi : vmi_instance) (cr3 vaddr : Nat) :
    (v2p_pae w c vmi cr3 vaddr).val =
      if (get_pdpi w vaddr (get_reg32 cr3)).val.testBit 0 = false then 0
      else if (get_pgd_pae w vmi vaddr (get_pdpi w vaddr (get_reg32 cr3)).val).val.testBit 0
          = true then
        if (get_pgd_pae w vmi vaddr (get_pdpi w vaddr (get_reg32 cr3)).val).val.testBit 7
            = true then
          get_large_paddr vmi vaddr
            (u32 (get_pgd_pae w vmi vaddr (get_pdpi w vaddr (get_reg32 cr3)).val).val)
        else if (get_pte_pae w vmi vaddr
            (get_pgd_pae w vmi vaddr (get_pdpi w vaddr (get_reg32 cr3)).val).val).val.testBit 0
            = true then
          u32 (get_paddr_pae vaddr (get_pte_pae w vmi vaddr
            (get_pgd_pae w vmi vaddr (get_pdpi w vaddr (get_reg32 cr3)).val).val).val)
        else 0
      else 0 := by
  simp only [v2p_pae, Run.bind_val, Run.pure_val, entry_present_ulong, entry_absent_ulong,
    page_size_flag_ulong]
  split_ifs <;>
    simp only [Run.bind_val, Run.pure_val, *, reduceIte, not_true_eq_false, Bool.false_eq_true,
      Bool.true_eq_false]

theorem vmi_pagetable_lookup_val (w : World) (c : Consts) (vmi : vmi_instance)
    (cr3 vaddr : Nat) :
    (vmi_pagetable_lookup w c vmi cr3 vaddr).val =
      if vmi.pae ≠ 0 then (v2p_pae w c vmi cr3 vaddr).val else (v2p_nopae w c vmi cr3 vaddr).val := by
  simp only [vmi_pagetable_lookup, Run.bind_val]
  split_ifs <;> rfl

theorem get_pgd_nopae_val (w : World) (vmi : vmi_instance) (cr3 vaddr : Nat)
    (hpae : vmi.pae = 0) :
    (get_pgd_nopae w vmi vaddr (get_reg32 cr3)).val =
      (vmi_read_32_ma w ((cr3 &&& 0xFFFFF000) + ((vaddr >>> 22) &&& 0x3FF) * 4)).val.value := by
  rw [← pgd_addr_nopae vmi cr3 vaddr hpae]
  rfl

theorem get_pdpi_val (w : World) (cr3 vaddr : Nat) (hv : vaddr < 2 ^ 32) :
    (get_pdpi w vaddr (get_reg32 cr3)).val =
      (vmi_read_64_ma w ((cr3 &&& 0xFFFFFFE0) + (vaddr >>> 30) * 8)).val.value := by
  rw [← pdpi_addr cr3 vaddr hv]
  rfl

theorem get_pgd_pae_val (w : World) (vmi : vmi_instance) (pdpe vaddr : Nat)
    (hpae : vmi.pae ≠ 0) :
    (get_pgd_pae w vmi vaddr pdpe).val =
      (vmi_read_64_ma w
        (((pdpe &&& 0xFFFFFF000) + ((vaddr >>> 21) &&& 0x1FF) * 8) % 2 ^ 32)).val.value := by
  rw [← pgd_addr_pae vmi pdpe vaddr hpae]
  rfl

theorem get_pte_pae_val (w : World) (vmi : vmi_instance) (pgd vaddr : Nat)
    (hpae : vmi.pae ≠ 0) :
    (get_pte_pae w vmi vaddr pgd).val =
      (vmi_read_64_ma w
        (((pgd &&& 0xFFFFFF000) + ((vaddr >>> 12) &&& 0x1FF) * 8) % 2 ^ 32)).val.value := by
  rw [← pte_addr_pae vmi pgd vaddr hpae]
  rfl

theorem mod12_of_mod22 (y v : Nat) (h : y % 2 ^ 22 = v % 2 ^ 22) : y % 2 ^ 12 = v % 2 ^ 12 := by
  omega

theorem mod12_of_mod21 (y v : Nat) (h : y % 2 ^ 21 = v % 2 ^ 21) : y % 2 ^ 12 = v % 2 ^ 12 := by
  omega

theorem u32_mod12 (y : Nat) : u32 y % 2 ^ 12 = y % 2 ^ 12 := by
  simp only [u32]
  omega

theorem paddr_pae_truncated (pte vaddr : Nat) :
    ((pte &&& 0xFFFFFF000) ||| (vaddr &&& 0xFFF)) % 2 ^ 32 =
      (pte &&& 0xFFFFF000) ||| (vaddr &&& 0xFFF) := by
  have e1 : (pte &&& 0xFFFFFF000) &&& (2 ^ 32 - 1) = pte &&& 0xFFFFF000 := by
    rw [Nat.and_assoc]
    rfl
  have e2 : (vaddr &&& 0xFFF) &&& (2 ^ 32 - 1) = vaddr &&& 0xFFF := by
    rw [Nat.and_assoc]
    rfl
  rw [← Nat.and_pow_two_sub_one_eq_mod, Nat.and_comm, Nat.and_or_distrib_left,
    Nat.and_comm _ (pte &&& 0xFFFFFF000), Nat.and_comm _ (vaddr &&& 0xFFF), e1, e2]

theorem windows_pgd_to_pid_found (w : World) (c : Consts) (vmi : vmi_instance) (pgd : Nat)
    (win : windows_instance) (hd : vmi.os_data = some win)
    (hne : (windows_find_eprocess_list_pgd w pgd).val ≠ 0) :
    windows_pgd_to_pid w c vmi pgd =
      ⟨i32 (vmi_read_32_va w (u64i ((windows_find_eprocess_list_pgd w pgd).val +
          win.pid_offset - win.tasks_offset)) 0).val.value,
        [Event.enter Fn.windows_pgd_to_pid, Event.windows_find_eprocess_list_pgd pgd,
         Event.vmi_read_32_va (u64i ((windows_find_eprocess_list_pgd w pgd).val +
          win.pid_offset - win.tasks_offset)) 0]⟩ := by
  rw [Run.ext_iff2]
  simp only [windows_pgd_to_pid, hd, Run.bind_val, Run.bind_trace, hne, reduceIte]
  exact ⟨rfl, rfl⟩

theorem find_eprocess_list_pid_spec (w : World) (win : windows_instance) (links : List Nat)
    (pid : Int) (h : ∃ l ∈ links, eprocess_pid w win l = pid) :
    find_eprocess_list_pid w win links pid ∈ links ∧
      eprocess_pid w win (find_eprocess_list_pid w win links pid) = pid := by
  induction links with
  | nil =>
    obtain ⟨l, hl, _⟩ := h
    exact absurd hl (List.not_mem_nil l)
  | cons a rest ih =>
    by_cases ha : eprocess_pid w win a = pid
    · simp only [find_eprocess_list_pid, ha, reduceIte]
      exact ⟨List.mem_cons_self a rest, trivial⟩
    · simp only [find_eprocess_list_pid, ha, reduceIte]
      obtain ⟨l, hl, hp⟩ := h
      have hl2 : l ∈ rest := by
        rcases List.mem_cons.mp hl with he | hr
        · rw [he] at hp
          exact absurd hp ha
        · exact hr
      obtain ⟨h1, h2⟩ := ih ⟨l, hl2, hp⟩
      exact ⟨List.mem_cons_of_mem a h1, h2⟩

theorem find_eprocess_list_pgd_spec (w : World) (win : windows_instance) (links : List Nat)
    (pgd : Nat) (h : ∃ l ∈ links, eprocess_pdbase w win l = pgd) :
    find_eprocess_list_pgd w win links pgd ∈ links ∧
      eprocess_pdbase w win (find_eprocess_list_pgd w win links pgd) = pgd := by
  induction links with
  | nil =>
    obtain ⟨l, hl, _⟩ := h
    exact absurd hl (List.not_mem_nil l)
  | cons a rest ih =>
    by_cases ha : eprocess_pdbase w win a = pgd
    · simp only [find_eprocess_list_pgd, ha, reduceIte]
      exact ⟨List.mem_cons_self a rest, trivial⟩
    · simp only [find_eprocess_list_pgd, ha, reduceIte]
      obtain ⟨l, hl, hp⟩ := h
      have hl2 : l ∈ rest := by
        rcases List.mem_cons.mp hl with he | hr
        · rw [he] at hp
          exact absurd hp ha
        · exact hr
      obtain ⟨h1, h2⟩ := ih ⟨l, hl2, hp⟩
      exact ⟨List.mem_cons_of_mem a h1, h2⟩

/-! ## Theorems -/

/-- C1. Non-PAE 4 KiB translation: on a non-PAE instance, for every memory
image, CR3 value and virtual address, if the 32-bit directory entry read at
`(cr3 & 0xFFFFF000) + ((vaddr >> 22) & 0x3FF) * 4` has bit 0 set and bit 7
clear, and the 32-bit leaf entry read at
`(pde & 0xFFFFF000) + ((vaddr >> 12) & 0x3FF) * 4` has bit 0 set, then
`v2p_nopae` returns `(pte & 0xFFFFF000) | (vaddr & 0xFFF)`, and these two
reads, in this order, are the page-table reads it performs.  The statuses of
the reads are not inspected by the code, so the statement holds in particular
when all reads succeed. -/
theorem C1_v2p_nopae_4k (w : World) (c : Consts) (vmi : vmi_instance) (cr3 vaddr pde pte : Nat)
    (hpae : vmi.pae = 0)
    (hpde : (vmi_read_32_ma w
      ((cr3 &&& 0xFFFFF000) + ((vaddr >>> 22) &&& 0x3FF) * 4)).val.value = pde)
    (hpresent : pde.testBit 0 = true) (hsmall : pde.testBit 7 = false)
    (hpte : (vmi_read_32_ma w
      ((pde &&& 0xFFFFF000) + ((vaddr >>> 12) &&& 0x3FF) * 4)).val.value = pte)
    (hleaf : pte.testBit 0 = true) :
    (v2p_nopae w c vmi cr3 vaddr).val = (pte &&& 0xFFFFF000) ||| (vaddr &&& 0xFFF) ∧
    maReads (v2p_nopae w c vmi cr3 vaddr).trace =
      [Event.vmi_read_32_ma ((cr3 &&& 0xFFFFF000) + ((vaddr >>> 22) &&& 0x3FF) * 4),
       Event.vmi_read_32_ma ((pde &&& 0xFFFFF000) + ((vaddr >>> 12) &&& 0x3FF) * 4)] := by
  have hpde2 : u32 (w.read_32_ma
      ((cr3 &&& 0xFFFFF000) + ((vaddr >>> 22) &&& 0x3FF) * 4)).value = pde := hpde
  have hpte2 : u32 (w.read_32_ma
      ((pde &&& 0xFFFFF000) + ((vaddr >>> 12) &&& 0x3FF) * 4)).value = pte := hpte
  simp only [v2p_nopae, get_pgd_nopae, get_pte_nopae, vmi_read_32_ma, Run.bind_val, Run.bind_trace,
    Run.pure_val, Run.pure_trace, emit_trace, dbprint_trace, bind_pure_comp, bind_assoc, pure_bind,
    pgd_addr_nopae vmi cr3 vaddr hpae, pte_addr_nopae vmi _ vaddr hpae, hpde2, hpte2,
    entry_present_ulong, page_size_flag_ulong, hpresent, hsmall, hleaf, reduceIte,
    Bool.false_eq_true, get_paddr_nopae, pte_pfn_nopae]
  simp [maReads, Event.isMaRead]

/-- Witness for C1: directory entry `0x00123001` (table base `0x00123000`),
leaf entry `0x00456001`, low 12 bits `0x234`, result `0x00456234`. -/
theorem C1_v2p_nopae_4k_witness :
    (v2p_nopae world4k c0 vmiNoPae 0x39000 0x00801234).val = 0x00456234 ∧
    maReads (v2p_nopae world4k c0 vmiNoPae 0x39000 0x00801234).trace =
      [Event.vmi_read_32_ma 0x39008, Event.vmi_read_32_ma 0x00123004] :=
  C1_v2p_nopae_4k world4k c0 vmiNoPae 0x39000 0x00801234 0x00123001 0x00456001
    rfl (by decide) (by decide) (by decide) (by decide) (by decide)

/-- C2. Non-PAE large-page decode: on a non-PAE instance, for every memory
image, CR3 and virtual address, if the directory entry read by `v2p_nopae`
has bit 0 and bit 7 set, `v2p_nopae` returns
`(entry & 0xFFC00000) | (vaddr & 0x3FFFFF)` and the read of the directory
entry is its only page-table read: no leaf entry is read. -/
theorem C2_v2p_nopae_large (w : World) (c : Consts) (vmi : vmi_instance) (cr3 vaddr pde : Nat)
    (hpae : vmi.pae = 0)
    (hpde : (vmi_read_32_ma w
      ((cr3 &&& 0xFFFFF000) + ((vaddr >>> 22) &&& 0x3FF) * 4)).val.value = pde)
    (hpresent : pde.testBit 0 = true) (hlarge : pde.testBit 7 = true) :
    (v2p_nopae w c vmi cr3 vaddr).val = (pde &&& 0xFFC00000) ||| (vaddr &&& 0x3FFFFF) ∧
    maReads (v2p_nopae w c vmi cr3 vaddr).trace =
      [Event.vmi_read_32_ma ((cr3 &&& 0xFFFFF000) + ((vaddr >>> 22) &&& 0x3FF) * 4)] := by
  have hpde2 : u32 (w.read_32_ma
      ((cr3 &&& 0xFFFFF000) + ((vaddr >>> 22) &&& 0x3FF) * 4)).value = pde := hpde
  simp only [v2p_nopae, get_pgd_nopae, vmi_read_32_ma, Run.bind_val, Run.bind_trace,
    Run.pure_val, Run.pure_trace, emit_trace, dbprint_trace,
    pgd_addr_nopae vmi cr3 vaddr hpae, hpde2,
    entry_present_ulong, page_size_flag_ulong, hpresent, hlarge, reduceIte,
    get_large_paddr_nopae vmi vaddr _ hpae]
  simp [maReads, Event.isMaRead]

/-- Witness for C2: entry `0x00400081` with `vaddr = 0x00401234` gives
`0x00401234`. -/
theorem C2_v2p_nopae_large_witness :
    (v2p_nopae worldLarge c0 vmiNoPae 0x39000 0x00401234).val = 0x00401234 ∧
    maReads (v2p_nopae worldLarge c0 vmiNoPae 0x39000 0x00401234).trace =
      [Event.vmi_read_32_ma 0x39004] :=
  C2_v2p_nopae_large worldLarge c0 vmiNoPae 0x39000 0x00401234 0x00400081
    rfl (by decide) (by decide) (by decide)

/-- C3. PAE large-page decode: on a PAE instance, for every memory image, CR3
and 32-bit virtual address, if the page-directory-pointer entry (read at
`(cr3 & 0xFFFFFFE0) + (vaddr >> 30) * 8`) has bit 0 set and the 64-bit
directory entry, read at offset `((vaddr >> 21) & 0x1FF) * 8` of the directory
`pdpe & 0xFFFFFF000` (the address being held in 32 bits), has bit 0 and bit 7
set, then `v2p_pae` returns `(entry & 0xFFE00000) | (vaddr & 0x1FFFFF)` and
these two reads are its only page-table reads: no leaf entry is read. -/
theorem C3_v2p_pae_large (w : World) (c : Consts) (vmi : vmi_instance) (cr3 vaddr pdpe pde : Nat)
    (hpae : vmi.pae ≠ 0) (hv : vaddr < 2 ^ 32)
    (hpdpe : (vmi_read_64_ma w ((cr3 &&& 0xFFFFFFE0) + (vaddr >>> 30) * 8)).val.value = pdpe)
    (htop : pdpe.testBit 0 = true)
    (hpde : (vmi_read_64_ma w
      (((pdpe &&& 0xFFFFFF000) + ((vaddr >>> 21) &&& 0x1FF) * 8) % 2 ^ 32)).val.value = pde)
    (hpresent : pde.testBit 0 = true) (hlarge : pde.testBit 7 = true) :
    (v2p_pae w c vmi cr3 vaddr).val = (pde &&& 0xFFE00000) ||| (vaddr &&& 0x1FFFFF) ∧
    maReads (v2p_pae w c vmi cr3 vaddr).trace =
      [Event.vmi_read_64_ma ((cr3 &&& 0xFFFFFFE0) + (vaddr >>> 30) * 8),
       Event.vmi_read_64_ma
         (((pdpe &&& 0xFFFFFF000) + ((vaddr >>> 21) &&& 0x1FF) * 8) % 2 ^ 32)] := by
  have hpdpe2 : u64 (w.read_64_ma ((cr3 &&& 0xFFFFFFE0) + (vaddr >>> 30) * 8)).value = pdpe :=
    hpdpe
  have hpde2 : u64 (w.read_64_ma
      (((pdpe &&& 0xFFFFFF000) + ((vaddr >>> 21) &&& 0x1FF) * 8) % 2 ^ 32)).value = pde := hpde
  simp only [v2p_pae, get_pdpi, get_pgd_pae, vmi_read_64_ma, Run.bind_val, Run.bind_trace,
    Run.pure_val, Run.pure_trace, emit_trace, dbprint_trace,
    pdpi_addr cr3 vaddr hv, hpdpe2, pgd_addr_pae vmi _ vaddr hpae, hpde2,
    entry_present_ulong, entry_absent_ulong, page_size_flag_ulong, htop, hpresent, hlarge,
    Bool.true_eq_false, reduceIte, get_large_paddr_pae vmi vaddr _ hpae]
  simp [maReads, Event.isMaRead]

/-- Witness for C3: `vaddr = 0x00201000` and the directory entry
`0x8000000012E00081` give `0x12E00000 | 0x001000`. -/
theorem C3_v2p_pae_large_witness :
    (v2p_pae worldPaeLarge c0 vmiPae 0x39000 0x00201000).val = 0x12E01000 ∧
    maReads (v2p_pae worldPaeLarge c0 vmiPae 0x39000 0x00201000).trace =
      [Event.vmi_read_64_ma 0x39000, Event.vmi_read_64_ma 0x5A008] :=
  C3_v2p_pae_large worldPaeLarge c0 vmiPae 0x39000 0x00201000 0x0005A001 0x8000000012E00081
    (by decide) (by decide) rfl (by decide) rfl (by decide) (by decide)

/-- C4. An absent entry yields "not resolved": on a non-PAE instance, for every
memory image, CR3, virtual address, OS type and encoding of the constants, if
the directory entry read by `v2p_nopae` has bit 0 clear, or has bit 0 set and
bit 7 clear while the leaf entry has bit 0 clear, then `v2p_nopae` returns 0,
whatever the other bits of the non-present entry are and whatever
`buffalo_nopae`, which is invoked on the way, reports about it. -/
theorem C4_v2p_nopae_absent (w : World) (c : Consts) (vmi : vmi_instance)
    (cr3 vaddr pde pte : Nat) (hpae : vmi.pae = 0)
    (hpde : (vmi_read_32_ma w
      ((cr3 &&& 0xFFFFF000) + ((vaddr >>> 22) &&& 0x3FF) * 4)).val.value = pde)
    (hpte : (vmi_read_32_ma w
      ((pde &&& 0xFFFFF000) + ((vaddr >>> 12) &&& 0x3FF) * 4)).val.value = pte)
    (habsent : pde.testBit 0 = false ∨
      (pde.testBit 0 = true ∧ pde.testBit 7 = false ∧ pte.testBit 0 = false)) :
    (v2p_nopae w c vmi cr3 vaddr).val = 0 ∧
    Event.enter Fn.buffalo_nopae ∈ (v2p_nopae w c vmi cr3 vaddr).trace := by
  have hpde2 : u32 (w.read_32_ma
      ((cr3 &&& 0xFFFFF000) + ((vaddr >>> 22) &&& 0x3FF) * 4)).value = pde := hpde
  have hpte2 : u32 (w.read_32_ma
      ((pde &&& 0xFFFFF000) + ((vaddr >>> 12) &&& 0x3FF) * 4)).value = pte := hpte
  rcases habsent with h0 | ⟨h0, h7, hl⟩
  · simp only [v2p_nopae, get_pgd_nopae, vmi_read_32_ma, Run.bind_val, Run.bind_trace,
      Run.pure_val, pgd_addr_nopae vmi cr3 vaddr hpae, hpde2, entry_present_ulong, h0,
      Bool.false_eq_true, reduceIte]
    simp [buffalo_nopae_enter]
  · simp only [v2p_nopae, get_pgd_nopae, get_pte_nopae, vmi_read_32_ma, Run.bind_val,
      Run.bind_trace, Run.pure_val, pgd_addr_nopae vmi cr3 vaddr hpae,
      pte_addr_nopae vmi _ vaddr hpae, hpde2, hpte2, entry_present_ulong, page_size_flag_ulong,
      h0, h7, hl, Bool.false_eq_true, reduceIte]
    simp [buffalo_nopae_enter]

/-- Witness for C4: the directory entry `0x00123C00` has its present bit clear
and its transition and prototype bits set; the result is 0. -/
theorem C4_v2p_nopae_absent_witness :
    (v2p_nopae worldAbsent c0 vmiNoPae 0x39000 0x00801234).val = 0 ∧
    Event.enter Fn.buffalo_nopae ∈ (v2p_nopae worldAbsent c0 vmiNoPae 0x39000 0x00801234).trace :=
  C4_v2p_nopae_absent worldAbsent c0 vmiNoPae 0x39000 0x00801234 0x00123C00 0
    (by decide) rfl rfl (Or.inl (by decide))

/-- C5. PAE top-level absence: for every instance, memory image, CR3 and 32-bit
virtual address, if the 64-bit page-directory-pointer entry read at
`(cr3 & 0xFFFFFFE0) + (vaddr >> 30) * 8` has bit 0 clear, `v2p_pae` returns 0,
that read is its only page-table read (no directory or leaf entry is read),
and the classifier `buffalo_nopae` is not invoked. -/
theorem C5_v2p_pae_top_absent (w : World) (c : Consts) (vmi : vmi_instance)
    (cr3 vaddr pdpe : Nat) (hv : vaddr < 2 ^ 32)
    (hpdpe : (vmi_read_64_ma w ((cr3 &&& 0xFFFFFFE0) + (vaddr >>> 30) * 8)).val.value = pdpe)
    (htop : pdpe.testBit 0 = false) :
    (v2p_pae w c vmi cr3 vaddr).val = 0 ∧
    maReads (v2p_pae w c vmi cr3 vaddr).trace =
      [Event.vmi_read_64_ma ((cr3 &&& 0xFFFFFFE0) + (vaddr >>> 30) * 8)] ∧
    Event.enter Fn.buffalo_nopae ∉ (v2p_pae w c vmi cr3 vaddr).trace := by
  have hpdpe2 : u64 (w.read_64_ma ((cr3 &&& 0xFFFFFFE0) + (vaddr >>> 30) * 8)).value = pdpe :=
    hpdpe
  simp only [v2p_pae, get_pdpi, vmi_read_64_ma, Run.bind_val, Run.bind_trace,
    Run.pure_val, Run.pure_trace, emit_trace, dbprint_trace,
    pdpi_addr cr3 vaddr hv, hpdpe2, entry_absent_ulong, htop, reduceIte]
  simp [maReads, Event.isMaRead]

/-- Witness for C5: pointer-table entry 3 is `0x0005A000` (bit 0 clear) while
all other memory looks present; `vaddr = 0xC0201000` selects entry 3. -/
theorem C5_v2p_pae_top_absent_witness :
    (v2p_pae worldPaeAbsent c0 vmiPae 0x39000 0xC0201000).val = 0 ∧
    maReads (v2p_pae worldPaeAbsent c0 vmiPae 0x39000 0xC0201000).trace =
      [Event.vmi_read_64_ma 0x39018] ∧
    Event.enter Fn.buffalo_nopae ∉ (v2p_pae worldPaeAbsent c0 vmiPae 0x39000 0xC0201000).trace :=
  C5_v2p_pae_top_absent worldPaeAbsent c0 vmiPae 0x39000 0xC0201000 0x0005A000
    (by decide) rfl (by decide)

/-- C6. Kernel translation fails fast: for every instance and virtual address,
if the CR3 register reads as zero, `vmi_translate_kv2p` returns 0, its only
step is the register read (so `vmi_pagetable_lookup` is not invoked and no
page-table memory is read); if CR3 is non-zero it returns exactly
`vmi_pagetable_lookup(instance, cr3, vaddr)`, and that lookup is `v2p_pae`
when the instance is PAE and `v2p_nopae` otherwise. -/
theorem C6_vmi_translate_kv2p (w : World) (c : Consts) (vmi : vmi_instance)
    (virt_address : Nat) :
    ((driver_get_vcpureg w).val.value = 0 →
      (vmi_translate_kv2p w c vmi virt_address).val = 0 ∧
      Event.enter Fn.vmi_pagetable_lookup ∉ (vmi_translate_kv2p w c vmi virt_address).trace ∧
      maReads (vmi_translate_kv2p w c vmi virt_address).trace = []) ∧
    ((driver_get_vcpureg w).val.value ≠ 0 →
      (vmi_translate_kv2p w c vmi virt_address).val =
        (vmi_pagetable_lookup w c vmi (driver_get_vcpureg w).val.value (u32 virt_address)).val ∧
      (vmi_translate_kv2p w c vmi virt_address).trace =
        Event.driver_get_vcpureg ::
          (vmi_pagetable_lookup w c vmi (driver_get_vcpureg w).val.value
            (u32 virt_address)).trace) ∧
    (∀ cr3 vaddr, vmi.pae ≠ 0 →
      (vmi_pagetable_lookup w c vmi cr3 vaddr).val = (v2p_pae w c vmi cr3 vaddr).val ∧
      (vmi_pagetable_lookup w c vmi cr3 vaddr).trace =
        Event.enter Fn.vmi_pagetable_lookup :: (v2p_pae w c vmi cr3 vaddr).trace) ∧
    (∀ cr3 vaddr, vmi.pae = 0 →
      (vmi_pagetable_lookup w c vmi cr3 vaddr).val = (v2p_nopae w c vmi cr3 vaddr).val ∧
      (vmi_pagetable_lookup w c vmi cr3 vaddr).trace =
        Event.enter Fn.vmi_pagetable_lookup :: (v2p_nopae w c vmi cr3 vaddr).trace) := by
  refine ⟨?_, ?_, ?_, ?_⟩
  · intro h0
    have h0' : u64 w.get_vcpureg_cr3.value = 0 := h0
    simp only [vmi_translate_kv2p, driver_get_vcpureg, Run.bind_val, Run.bind_trace,
      Run.pure_val, Run.pure_trace, emit_trace, dbprint_trace, h0', reduceIte]
    simp [maReads, Event.isMaRead]
  · intro hne
    have hne' : u64 w.get_vcpureg_cr3.value ≠ 0 := hne
    simp only [vmi_translate_kv2p, driver_get_vcpureg, Run.bind_val, Run.bind_trace,
      Run.pure_val, Run.pure_trace, emit_trace, hne', reduceIte]
    simp
  · intro cr3 vaddr hpae
    simp only [vmi_pagetable_lookup, Run.bind_val, Run.bind_trace, emit_trace, hpae, ne_eq,
      not_false_eq_true, reduceIte]
    simp
  · intro cr3 vaddr hpae
    simp only [vmi_pagetable_lookup, Run.bind_val, Run.bind_trace, emit_trace, hpae, ne_eq,
      not_true_eq_false, reduceIte]
    simp

/-- Witness for C6: with CR3 reading zero the result is 0 after the register
read alone; with CR3 reading `0x39000` the 4 KiB image translates
`0x00801234` to `0x00456234`. -/
theorem C6_vmi_translate_kv2p_witness :
    ((vmi_translate_kv2p emptyWorld c0 vmiNoPae 0x00801234).val = 0 ∧
      Event.enter Fn.vmi_pagetable_lookup ∉
        (vmi_translate_kv2p emptyWorld c0 vmiNoPae 0x00801234).trace ∧
      maReads (vmi_translate_kv2p emptyWorld c0 vmiNoPae 0x00801234).trace = []) ∧
    (vmi_translate_kv2p worldKernel c0 vmiNoPae 0x00801234).val =
      (vmi_pagetable_lookup worldKernel c0 vmiNoPae 0x39000 0x00801234).val :=
  ⟨(C6_vmi_translate_kv2p emptyWorld c0 vmiNoPae 0x00801234).1 rfl,
   ((C6_vmi_translate_kv2p worldKernel c0 vmiNoPae 0x00801234).2.1 (by decide)).1⟩

/-- C7. User translation fails fast: for every instance, virtual address and
pid, if `vmi_pid_to_pgd(instance, pid)` yields zero, `vmi_translate_uv2p`
returns 0 without invoking `vmi_pagetable_lookup` (after the resolution it
only reports the early bail, and no page-table memory is read); otherwise it
returns `vmi_pagetable_lookup(instance, pgd, vaddr)` with `pgd` the resolved
base. -/
theorem C7_vmi_translate_uv2p (w : World) (c : Consts) (vmi : vmi_instance)
    (virt_address : Nat) (pid : Int) :
    ((vmi_pid_to_pgd w c vmi pid).val = 0 →
      (vmi_translate_uv2p w c vmi virt_address pid).val = 0 ∧
      (vmi_translate_uv2p w c vmi virt_address pid).trace =
        (vmi_pid_to_pgd w c vmi pid).trace ++
          [Event.dbprint "--early bail on v2p lookup because pgd is zero\n" []] ∧
      Event.enter Fn.vmi_pagetable_lookup ∉ (vmi_translate_uv2p w c vmi virt_address pid).trace ∧
      maReads (vmi_translate_uv2p w c vmi virt_address pid).trace = []) ∧
    ((vmi_pid_to_pgd w c vmi pid).val ≠ 0 →
      (vmi_translate_uv2p w c vmi virt_address pid).val =
        (vmi_pagetable_lookup w c vmi (vmi_pid_to_pgd w c vmi pid).val (u32 virt_address)).val ∧
      (vmi_translate_uv2p w c vmi virt_address pid).trace =
        (vmi_pid_to_pgd w c vmi pid).trace ++
          (vmi_pagetable_lookup w c vmi (vmi_pid_to_pgd w c vmi pid).val
            (u32 virt_address)).trace) := by
  refine ⟨?_, ?_⟩
  · intro h0
    have ht : (vmi_translate_uv2p w c vmi virt_address pid).trace =
        (vmi_pid_to_pgd w c vmi pid).trace ++
          [Event.dbprint "--early bail on v2p lookup because pgd is zero\n" []] := by
      simp only [vmi_translate_uv2p, Run.bind_trace, Run.pure_trace, dbprint_trace, h0,
        reduceIte]
      simp
    refine ⟨?_, ht, ?_, ?_⟩
    · simp only [vmi_translate_uv2p, Run.bind_val, Run.pure_val, h0, reduceIte]
    · rw [ht]
      intro hmem
      rcases List.mem_append.mp hmem with h | h
      · exact (vmi_pid_to_pgd_trace w c vmi pid _ h).2.2 rfl
      · simp at h
    · rw [ht, maReads, List.filter_eq_nil_iff]
      intro e hmem
      rcases List.mem_append.mp hmem with h | h
      · simp [(vmi_pid_to_pgd_trace w c vmi pid e h).2.1]
      · simp at h
        subst h
        simp [Event.isMaRead]
  · intro hne
    simp only [vmi_translate_uv2p, Run.bind_val, Run.bind_trace, hne, reduceIte]
    simp

/-- Witness for C7: on a Linux instance whose walk finds nothing the result is
0 and the lookup is not entered; with pid 4 cached as `0x39000` the 4 KiB
image translates `0x00801234` to `0x00456234`. -/
theorem C7_vmi_translate_uv2p_witness :
    ((vmi_translate_uv2p emptyWorld c0 vmiLinux 0x00801234 4).val = 0 ∧
      Event.enter Fn.vmi_pagetable_lookup ∉
        (vmi_translate_uv2p emptyWorld c0 vmiLinux 0x00801234 4).trace) ∧
    (vmi_translate_uv2p worldCached c0 vmiWin 0x00801234 4).val =
      (vmi_pagetable_lookup worldCached c0 vmiWin 0x39000 0x00801234).val ∧
    (vmi_pagetable_lookup worldCached c0 vmiWin 0x39000 0x00801234).val = 0x00456234 :=
  ⟨⟨((C7_vmi_translate_uv2p emptyWorld c0 vmiLinux 0x00801234 4).1 (by decide)).1,
    ((C7_vmi_translate_uv2p emptyWorld c0 vmiLinux 0x00801234 4).1 (by decide)).2.2.1⟩,
   ((C7_vmi_translate_uv2p worldCached c0 vmiWin 0x00801234 4).2 (by decide)).1,
   by decide⟩

/-- C8, as stated, fails: with an empty cache on a Windows instance the walk
`windows_pid_to_pgd` yields the `addr_t` value `0x100039000`, but
`vmi_pid_to_pgd` stores it in its `uint32_t` local and returns `0x39000`. -/
theorem C8_vmi_pid_to_pgd_counterexample :
    (vmi_check_pid_cache worldProcWide 4 0).val.1 = 0 ∧
    vmiWin.os_type = c0.VMI_OS_WINDOWS ∧
    (windows_pid_to_pgd worldProcWide c0 vmiWin 4).val = 0x100039000 ∧
    (vmi_pid_to_pgd worldProcWide c0 vmiWin 4).val = 0x39000 ∧
    (vmi_pid_to_pgd worldProcWide c0 vmiWin 4).val ≠
      (windows_pid_to_pgd worldProcWide c0 vmiWin 4).val := by
  decide

/-- C8, amended. A cache hit short-circuits the walk: for every instance and
pid, if the cache lookup hits with value `b`, `vmi_pid_to_pgd` returns `b` and
its only step is the lookup (neither `linux_pid_to_pgd` nor
`windows_pid_to_pgd` is invoked); on a miss it returns the result of the walk
for the configured OS variant (Linux or Windows) converted to `uint32_t`, that
is, reduced modulo 2^32, which is the walk's result whenever that is below
2^32. -/
theorem C8_vmi_pid_to_pgd (w : World) (c : Consts) (vmi : vmi_instance) (pid : Int) :
    (∀ hit b, (vmi_check_pid_cache w pid 0).val = (hit, b) → hit ≠ 0 →
      (vmi_pid_to_pgd w c vmi pid).val = b ∧
      (vmi_pid_to_pgd w c vmi pid).trace = [Event.vmi_check_pid_cache pid]) ∧
    ((vmi_check_pid_cache w pid 0).val.1 = 0 → vmi.os_type = c.VMI_OS_LINUX →
      (vmi_pid_to_pgd w c vmi pid).val = (linux_pid_to_pgd w pid).val % 2 ^ 32 ∧
      ((linux_pid_to_pgd w pid).val < 2 ^ 32 →
        (vmi_pid_to_pgd w c vmi pid).val = (linux_pid_to_pgd w pid).val)) ∧
    ((vmi_check_pid_cache w pid 0).val.1 = 0 → vmi.os_type = c.VMI_OS_WINDOWS →
      (vmi_pid_to_pgd w c vmi pid).val = (windows_pid_to_pgd w c vmi pid).val % 2 ^ 32 ∧
      ((windows_pid_to_pgd w c vmi pid).val < 2 ^ 32 →
        (vmi_pid_to_pgd w c vmi pid).val = (windows_pid_to_pgd w c vmi pid).val)) := by
  have hmiss : (vmi_check_pid_cache w pid 0).val.1 = 0 → w.pid_cache pid = none := by
    intro h
    cases hc : w.pid_cache pid with
    | none => rfl
    | some b =>
      rw [vmi_check_pid_cache_hit w pid 0 b hc] at h
      exact absurd h one_ne_zero
  refine ⟨?_, ?_, ?_⟩
  · intro hit b hv hhit
    cases hc : w.pid_cache pid with
    | none =>
      rw [vmi_check_pid_cache_miss w pid 0 hc] at hv
      exact absurd (congrArg Prod.fst hv).symm hhit
    | some b0 =>
      rw [vmi_check_pid_cache_hit w pid 0 b0 hc] at hv
      rw [vmi_pid_to_pgd_hit w c vmi pid b0 hc]
      exact ⟨congrArg Prod.snd hv, rfl⟩
  · intro h hos
    rw [vmi_pid_to_pgd_linux w c vmi pid (hmiss h) hos.symm]
    exact ⟨rfl, fun hlt => Nat.mod_eq_of_lt hlt⟩
  · intro h hos
    rw [vmi_pid_to_pgd_windows w c vmi pid (hmiss h) hos.symm]
    exact ⟨rfl, fun hlt => Nat.mod_eq_of_lt hlt⟩

/-- Witness for C8: pid 4 cached as `0x39000` is returned after the lookup
alone; with an empty cache the Windows walk result `0x39000` is returned. -/
theorem C8_vmi_pid_to_pgd_witness :
    ((vmi_pid_to_pgd worldCached c0 vmiWin 4).val = 0x39000 ∧
      (vmi_pid_to_pgd worldCached c0 vmiWin 4).trace = [Event.vmi_check_pid_cache 4]) ∧
    (vmi_pid_to_pgd worldProc c0 vmiWin 4).val =
      (windows_pid_to_pgd worldProc c0 vmiWin 4).val :=
  ⟨(C8_vmi_pid_to_pgd worldCached c0 vmiWin 4).1 1 0x39000 (by decide) (by decide),
   ((C8_vmi_pid_to_pgd worldProc c0 vmiWin 4).2.2 (by decide) (by decide)).2 (by decide)⟩

/-- C9, as stated, fails: on a Windows instance with an empty cache the first
`vmi_pid_to_pgd` call for pid 4 resolves the base `0x39000` through the walk,
yet in the world left by that call the cache still has no entry for pid 4 and
the second call runs `windows_find_eprocess_list_pid` again. -/
theorem C9_cache_not_populated_counterexample :
    worldProc.pid_cache 4 = none ∧
    (vmi_pid_to_pgd worldProc c0 vmiWin 4).val = 0x39000 ∧
    Event.windows_find_eprocess_list_pid 4 ∈ (vmi_pid_to_pgd worldProc c0 vmiWin 4).trace ∧
    (worldProc.replay (vmi_pid_to_pgd worldProc c0 vmiWin 4).trace).pid_cache 4 = none ∧
    Event.windows_find_eprocess_list_pid 4 ∈
      (vmi_pid_to_pgd (worldProc.replay (vmi_pid_to_pgd worldProc c0 vmiWin 4).trace)
        c0 vmiWin 4).trace := by
  decide

/-- C9, amended. `vmi_pid_to_pgd` never inserts into the cache: for every
Windows instance with a profile and every pid, a first call that misses the
cache leaves the world as it was, so the cache still has no entry for the pid;
a second call for the same pid repeats the first one, entering
`windows_pid_to_pgd` and invoking `windows_find_eprocess_list_pid` again, and
returns the same value. -/
theorem C9_cache_not_populated (w : World) (c : Consts) (vmi : vmi_instance) (pid : Int)
    (win : windows_instance) (hos : vmi.os_type = c.VMI_OS_WINDOWS)
    (hd : vmi.os_data = some win) (hmiss : w.pid_cache pid = none) :
    w.replay (vmi_pid_to_pgd w c vmi pid).trace = w ∧
    (w.replay (vmi_pid_to_pgd w c vmi pid).trace).pid_cache pid = none ∧
    vmi_pid_to_pgd (w.replay (vmi_pid_to_pgd w c vmi pid).trace) c vmi pid =
      vmi_pid_to_pgd w c vmi pid ∧
    Event.enter Fn.windows_pid_to_pgd ∈
      (vmi_pid_to_pgd (w.replay (vmi_pid_to_pgd w c vmi pid).trace) c vmi pid).trace ∧
    Event.windows_find_eprocess_list_pid pid ∈
      (vmi_pid_to_pgd (w.replay (vmi_pid_to_pgd w c vmi pid).trace) c vmi pid).trace := by
  have hw : w.replay (vmi_pid_to_pgd w c vmi pid).trace = w :=
    replay_eq_self w _ (fun e he => (vmi_pid_to_pgd_trace w c vmi pid e he).1)
  rw [hw]
  refine ⟨rfl, hmiss, rfl, ?_, ?_⟩
  · rw [vmi_pid_to_pgd_windows w c vmi pid hmiss hos.symm]
    by_cases h0 : (windows_find_eprocess_list_pid w pid).val = 0
    · rw [windows_pid_to_pgd_not_found w c vmi pid win hd h0]
      simp
    · rw [windows_pid_to_pgd_found w c vmi pid win hd h0]
      simp
  · rw [vmi_pid_to_pgd_windows w c vmi pid hmiss hos.symm]
    by_cases h0 : (windows_find_eprocess_list_pid w pid).val = 0
    · rw [windows_pid_to_pgd_not_found w c vmi pid win hd h0]
      simp
    · rw [windows_pid_to_pgd_found w c vmi pid win hd h0]
      simp

/-- Witness for C9 (amended): the process-list world with pid 4. -/
theorem C9_cache_not_populated_witness :
    worldProc.replay (vmi_pid_to_pgd worldProc c0 vmiWin 4).trace = worldProc ∧
    vmi_pid_to_pgd (worldProc.replay (vmi_pid_to_pgd worldProc c0 vmiWin 4).trace) c0 vmiWin 4 =
      vmi_pid_to_pgd worldProc c0 vmiWin 4 :=
  ⟨(C9_cache_not_populated worldProc c0 vmiWin 4 winProfile rfl rfl rfl).1,
   (C9_cache_not_populated worldProc c0 vmiWin 4 winProfile rfl rfl rfl).2.2.1⟩

/-- C10. EPROCESS offset correction: for every Windows profile
`(tasks_offset, pdbase_offset)` and every non-zero linkage-field address `A`
returned by the process-list search, `windows_pid_to_pgd` performs exactly one
virtual-address read, in kernel context (pid 0), at
`A - tasks_offset + pdbase_offset` (an `addr_t`, so taken modulo 2^64; it is
that very integer whenever it lies in the `addr_t` range), and returns the
value read there. -/
theorem C10_windows_pid_to_pgd_offset (w : World) (c : Consts) (vmi : vmi_instance)
    (win : windows_instance) (pid : Int) (A : Nat)
    (hd : vmi.os_data = some win)
    (hA : (windows_find_eprocess_list_pid w pid).val = A) (hne : A ≠ 0) :
    (windows_pid_to_pgd w c vmi pid).val =
      (vmi_read_addr_va w (u64i (A - win.tasks_offset + win.pdbase_offset)) 0).val.value ∧
    vaReads (windows_pid_to_pgd w c vmi pid).trace =
      [Event.vmi_read_addr_va (u64i (A - win.tasks_offset + win.pdbase_offset)) 0] ∧
    (0 ≤ (A : Int) - win.tasks_offset + win.pdbase_offset →
      (A : Int) - win.tasks_offset + win.pdbase_offset < 2 ^ 64 →
      (u64i (A - win.tasks_offset + win.pdbase_offset) : Int) =
        A - win.tasks_offset + win.pdbase_offset) := by
  have hne2 : (windows_find_eprocess_list_pid w pid).val ≠ 0 := by
    rw [hA]
    exact hne
  have hadd : (A : Int) + win.pdbase_offset - win.tasks_offset =
      A - win.tasks_offset + win.pdbase_offset := by ring
  rw [windows_pid_to_pgd_found w c vmi pid win hd hne2, hA, hadd]
  refine ⟨rfl, ?_, ?_⟩
  · simp [vaReads, Event.isVaRead]
  · intro h0 hlt
    simp only [u64i]
    rw [Int.emod_eq_of_lt h0 hlt]
    exact Int.toNat_of_nonneg h0

/-- Witness for C10: `tasks_offset = 0x88`, `pdbase_offset = 0x18` and
`A = 0x81234088`; the base is read from `0x81234018 = A - 0x88 + 0x18`. -/
theorem C10_windows_pid_to_pgd_offset_witness :
    (windows_pid_to_pgd worldProc c0 vmiWin 4).val = 0x39000 ∧
    vaReads (windows_pid_to_pgd worldProc c0 vmiWin 4).trace =
      [Event.vmi_read_addr_va 0x81234018 0] ∧
    (0x81234018 : Int) = 0x81234088 - 0x88 + 0x18 :=
  ⟨(C10_windows_pid_to_pgd_offset worldProc c0 vmiWin winProfile 4 0x81234088
      rfl (by decide) (by decide)).1,
   (C10_windows_pid_to_pgd_offset worldProc c0 vmiWin winProfile 4 0x81234088
      rfl (by decide) (by decide)).2.1,
   by decide⟩

/-- C15. Non-PAE directory index: for every 32-bit address `a` on a non-PAE
instance, `pgd_index(a) = ((a >> 22) & 0x3FF) * 4`; it is a multiple of 4 in
`[0, 4092]` and depends only on the top 10 bits of `a` (it is `a / 2^22` times
4, and two addresses with the same top 10 bits have the same index);
`pgd_index(0x00000000) = 0`, `pgd_index(0x00400000) = 4` and
`pgd_index(0xFFC00000) = 4092`. -/
theorem C15_pgd_index_nopae (vmi : vmi_instance) (a : Nat) (hpae : vmi.pae = 0)
    (ha : a < 2 ^ 32) :
    pgd_index vmi a = ((a >>> 22) &&& 0x3FF) * 4 ∧
    4 ∣ pgd_index vmi a ∧ pgd_index vmi a ≤ 4092 ∧
    pgd_index vmi a = (a / 2 ^ 22) * 4 ∧
    (∀ b, b < 2 ^ 32 → b / 2 ^ 22 = a / 2 ^ 22 → pgd_index vmi b = pgd_index vmi a) ∧
    pgd_index vmi 0x00000000 = 0 ∧ pgd_index vmi 0x00400000 = 4 ∧
    pgd_index vmi 0xFFC00000 = 4092 := by
  have hb : (a >>> 22) &&& 0x3FF ≤ 0x3FF := Nat.and_le_right
  have top : ∀ x, x < 2 ^ 32 → (x >>> 22) &&& 0x3FF = x / 2 ^ 22 := by
    intro x hx
    have h1 : (0x3FF : Nat) = 2 ^ 10 - 1 := by decide
    rw [h1, Nat.and_pow_two_sub_one_eq_mod, Nat.shiftRight_eq_div_pow]
    apply Nat.mod_eq_of_lt
    omega
  refine ⟨pgd_index_nopae vmi a hpae, ?_, ?_, ?_, ?_, ?_, ?_, ?_⟩
  · rw [pgd_index_nopae vmi a hpae]
    exact Dvd.intro_left _ rfl
  · rw [pgd_index_nopae vmi a hpae]
    omega
  · rw [pgd_index_nopae vmi a hpae, top a ha]
  · intro b hb2 hab
    rw [pgd_index_nopae vmi a hpae, pgd_index_nopae vmi b hpae, top a ha, top b hb2, hab]
  · rw [pgd_index_nopae vmi _ hpae]
    decide
  · rw [pgd_index_nopae vmi _ hpae]
    decide
  · rw [pgd_index_nopae vmi _ hpae]
    decide

/-- Witness for C15: the address `0x00801234` has directory index 8. -/
theorem C15_pgd_index_nopae_witness :
    pgd_index vmiNoPae 0x00801234 = ((0x00801234 >>> 22) &&& 0x3FF) * 4 ∧
    pgd_index vmiNoPae 0x00801234 = 8 ∧ pgd_index vmiNoPae 0xFFC00000 = 4092 :=
  ⟨(C15_pgd_index_nopae vmiNoPae 0x00801234 (by decide) (by decide)).1, by decide,
   (C15_pgd_index_nopae vmiNoPae 0x00801234 (by decide) (by decide)).2.2.2.2.2.2.2⟩

/-- C16. PAE top-level index: for every 32-bit address `a`,
`pdpi_index(a) = (a >> 30) * 8`, which is one of 0, 8, 16, 24, so it selects
one of exactly 4 entries; `pdpi_index(0x00000000) = 0`,
`pdpi_index(0x40000000) = 8`, `pdpi_index(0x80000000) = 16` and
`pdpi_index(0xC0000000) = 24`. -/
theorem C16_pdpi_index (a : Nat) (ha : a < 2 ^ 32) :
    pdpi_index a = (a >>> 30) * 8 ∧
    (pdpi_index a = 0 ∨ pdpi_index a = 8 ∨ pdpi_index a = 16 ∨ pdpi_index a = 24) ∧
    pdpi_index 0x00000000 = 0 ∧ pdpi_index 0x40000000 = 8 ∧
    pdpi_index 0x80000000 = 16 ∧ pdpi_index 0xC0000000 = 24 := by
  have hs : a >>> 30 < 4 := by
    rw [Nat.shiftRight_eq_div_pow]
    omega
  have he : pdpi_index a = (a >>> 30) * 8 := by
    simp only [pdpi_index, sizeof_uint64_t, u32]
    omega
  refine ⟨he, ?_, by decide, by decide, by decide, by decide⟩
  rw [he]
  omega

/-- Witness for C16: the address `0xC0201000` selects the fourth entry. -/
theorem C16_pdpi_index_witness :
    pdpi_index 0xC0201000 = (0xC0201000 >>> 30) * 8 ∧ pdpi_index 0xC0201000 = 24 :=
  ⟨(C16_pdpi_index 0xC0201000 (by decide)).1, by decide⟩

/-- C17, evaluated on the code. On a Windows instance an entry equal to zero,
at directory level (`pde = 0`) and at leaf level (`pde = 1`), is reported as
"demand zero page", for every encoding of the constants; the message
"entry is zero" is never produced, for any instance, entry and level: an
entry equal to zero has its transition and prototype bits clear and is
consumed by the first branch. -/
theorem C17_zero_entry_reported_demand_zero :
    (buffalo_nopae c0 vmiWin 0 0).trace =
      [Event.enter Fn.buffalo_nopae, Event.dbprint "--Buffalo: demand zero page\n" []] ∧
    (buffalo_nopae c0 vmiWin 0 1).trace =
      [Event.enter Fn.buffalo_nopae, Event.dbprint "--Buffalo: demand zero page\n" []] ∧
    (∀ (c : Consts) (vmi : vmi_instance) (pde : Int), vmi.os_type = c.VMI_OS_WINDOWS →
      (buffalo_nopae c vmi 0 pde).trace =
        [Event.enter Fn.buffalo_nopae, Event.dbprint "--Buffalo: demand zero page\n" []]) ∧
    (∀ (c : Consts) (vmi : vmi_instance) (e : Nat) (pde : Int),
      Event.dbprint "--Buffalo: entry is zero\n" [] ∉ (buffalo_nopae c vmi e pde).trace) := by
  have gen : ∀ (c : Consts) (vmi : vmi_instance) (pde : Int), vmi.os_type = c.VMI_OS_WINDOWS →
      (buffalo_nopae c vmi 0 pde).trace =
        [Event.enter Fn.buffalo_nopae, Event.dbprint "--Buffalo: demand zero page\n" []] := by
    intro c vmi pde hos
    rw [buffalo_nopae_classify c vmi 0 pde (buffalo_guard c vmi hos)]
    simp
  refine ⟨gen c0 vmiWin 0 rfl, gen c0 vmiWin 1 rfl, gen, ?_⟩
  intro c vmi e pde
  by_cases hg : lnot vmi.os_type = c.VMI_OS_WINDOWS
  · rw [buffalo_nopae_early c vmi e pde hg]
    simp
  · rw [buffalo_nopae_classify c vmi e pde hg]
    split_ifs with h1 h2 h3 h4 h5 h6
    · simp
    · simp
    · simp
    · simp
    · simp
    · subst h6
      simp at h1
    · simp

/-- C18. Classifier categories on a Windows-configured instance: for every
encoding of the OS tags and every entry `e`, the guard of `buffalo_nopae` does
not fire (no early return) and the classifier reports exactly one message:
(i) with bits 11 and 10 clear, "page file" with index `(e >> 1) & 0xF` and
frame `e & 0xFFFFF000` when both are non-zero, and "demand zero page" when both
are zero; (ii) with bit 11 set and bit 10 clear, "page in transition";
(iii) with bit 10 set, for the level flag 0, "prototype entry"; and level flag
0 is what `v2p_nopae` passes for an entry it obtained from the directory
level: on a non-PAE instance, when the directory entry has bit 0 clear, the
trace of `v2p_nopae` is its directory read followed by the trace of
`buffalo_nopae` on that entry with flag 0. -/
theorem C18_buffalo_categories (c : Consts) (vmi : vmi_instance) (e : Nat) (pde : Int)
    (hos : vmi.os_type = c.VMI_OS_WINDOWS) :
    lnot vmi.os_type ≠ c.VMI_OS_WINDOWS ∧
    (e.testBit 11 = false → e.testBit 10 = false →
      (e >>> 1) &&& 0xF ≠ 0 → e &&& 0xFFFFF000 ≠ 0 →
      (buffalo_nopae c vmi e pde).trace =
        [Event.enter Fn.buffalo_nopae,
         Event.dbprint "--Buffalo: page file = %d, frame = 0x%.8x\n"
          [Arg.u ((e >>> 1) &&& 0xF), Arg.u (e &&& 0xFFFFF000)]]) ∧
    (e.testBit 11 = false → e.testBit 10 = false →
      (e >>> 1) &&& 0xF = 0 → e &&& 0xFFFFF000 = 0 →
      (buffalo_nopae c vmi e pde).trace =
        [Event.enter Fn.buffalo_nopae, Event.dbprint "--Buffalo: demand zero page\n" []]) ∧
    (e.testBit 11 = true → e.testBit 10 = false →
      (buffalo_nopae c vmi e pde).trace =
        [Event.enter Fn.buffalo_nopae, Event.dbprint "--Buffalo: page in transition\n" []]) ∧
    (e.testBit 10 = true →
      (buffalo_nopae c vmi e 0).trace =
        [Event.enter Fn.buffalo_nopae, Event.dbprint "--Buffalo: prototype entry\n" []]) ∧
    (∀ (w : World) (cr3 vaddr : Nat), vmi.pae = 0 →
      (vmi_read_32_ma w ((cr3 &&& 0xFFFFF000) + ((vaddr >>> 22) &&& 0x3FF) * 4)).val.value = e →
      e.testBit 0 = false →
      (v2p_nopae w c vmi cr3 vaddr).trace =
        [Event.enter Fn.v2p_nopae,
         Event.dbprint "--PTLookup: lookup vaddr = 0x%.8x\n" [Arg.u vaddr],
         Event.dbprint "--PTLookup: cr3 = 0x%.8x\n" [Arg.u cr3],
         Event.dbprint "--PTLookup: pgd_entry = 0x%.8x\n"
           [Arg.u ((cr3 &&& 0xFFFFF000) + ((vaddr >>> 22) &&& 0x3FF) * 4)],
         Event.vmi_read_32_ma ((cr3 &&& 0xFFFFF000) + ((vaddr >>> 22) &&& 0x3FF) * 4),
         Event.dbprint "--PTLookup: pgd = 0x%.8x\n" [Arg.u e]] ++
        (buffalo_nopae c vmi e 0).trace ++
        [Event.dbprint "--PTLookup: paddr = 0x%.8x\n" [Arg.u 0]]) := by
  have hg := buffalo_guard c vmi hos
  refine ⟨hg, ?_, ?_, ?_, ?_, ?_⟩
  · intro h11 h10 hn hf
    rw [buffalo_nopae_classify c vmi e pde hg]
    simp [h11, h10, hn, hf]
  · intro h11 h10 hn hf
    rw [buffalo_nopae_classify c vmi e pde hg]
    simp [h11, h10, hn, hf]
  · intro h11 h10
    rw [buffalo_nopae_classify c vmi e pde hg]
    simp [h11, h10]
  · intro h10
    rw [buffalo_nopae_classify c vmi e 0 hg]
    simp [h10]
  · intro w cr3 vaddr hpae he h0
    have he2 : u32 (w.read_32_ma
        ((cr3 &&& 0xFFFFF000) + ((vaddr >>> 22) &&& 0x3FF) * 4)).value = e := he
    simp only [v2p_nopae, get_pgd_nopae, vmi_read_32_ma, Run.bind_val, Run.bind_trace,
      Run.pure_val, Run.pure_trace, emit_trace, dbprint_trace,
      pgd_addr_nopae vmi cr3 vaddr hpae, he2, entry_present_ulong, h0, Bool.false_eq_true,
      reduceIte]
    simp

/-- Witness for C18: on the Windows instance, `0x00456012` is reported as
page file 9 with frame `0x00456000`, `0x00000800` as in transition and
`0x00000400` at directory level as a prototype entry. -/
theorem C18_buffalo_categories_witness :
    (buffalo_nopae c0 vmiWin 0x00456012 1).trace =
      [Event.enter Fn.buffalo_nopae,
       Event.dbprint "--Buffalo: page file = %d, frame = 0x%.8x\n"
        [Arg.u 9, Arg.u 0x00456000]] ∧
    (buffalo_nopae c0 vmiWin 0x00000800 1).trace =
      [Event.enter Fn.buffalo_nopae, Event.dbprint "--Buffalo: page in transition\n" []] ∧
    (buffalo_nopae c0 vmiWin 0x00000400 0).trace =
      [Event.enter Fn.buffalo_nopae, Event.dbprint "--Buffalo: prototype entry\n" []] :=
  ⟨(C18_buffalo_categories c0 vmiWin 0x00456012 1 rfl).2.1
      (by decide) (by decide) (by decide) (by decide),
   (C18_buffalo_categories c0 vmiWin 0x00000800 1 rfl).2.2.2.1 (by decide) (by decide),
   (C18_buffalo_categories c0 vmiWin 0x00000400 0 rfl).2.2.2.2.1 (by decide)⟩

/-- C13, evaluated on the code. With `os_data` NULL, `windows_pid_to_pgd`
returns the status code `VMI_FAILURE` converted to `addr_t` without searching
the process list, for every encoding of the constants; with the status codes 0
and 1 this is the address 1, so on a Windows instance with an empty cache
`vmi_pid_to_pgd` yields 1 and `vmi_translate_uv2p` enters
`vmi_pagetable_lookup` instead of failing fast.  The other failure path of the
same function (object not found) returns 0. -/
theorem C13_null_profile_returns_failure_code :
    (windows_pid_to_pgd emptyWorld c0 vmiNoPae 4).val = 1 ∧
    (vmi_pid_to_pgd emptyWorld c0 vmiNoPae 4).val = 1 ∧
    Event.enter Fn.vmi_pagetable_lookup ∈
      (vmi_translate_uv2p emptyWorld c0 vmiNoPae 0x00801234 4).trace ∧
    (windows_pid_to_pgd emptyWorld c0 vmiWin 4).val = 0 ∧
    (∀ (w : World) (c : Consts) (vmi : vmi_instance) (pid : Int), vmi.os_data = none →
      (windows_pid_to_pgd w c vmi pid).val = u64i c.VMI_FAILURE ∧
      (windows_pid_to_pgd w c vmi pid).trace = [Event.enter Fn.windows_pid_to_pgd]) := by
  refine ⟨by decide, by decide, by decide, by decide, ?_⟩
  intro w c vmi pid hd
  rw [windows_pid_to_pgd_null w c vmi pid hd]
  exact ⟨rfl, rfl⟩

/-- C14, as stated, fails: the read of the directory entry at `0x39008`
reports failure, its buffer holds `0x00123001`, and `v2p_nopae` goes on to
read the leaf entry at `0x00123004` and returns `0x00456234`. -/
theorem C14_failed_read_counterexample :
    (vmi_read_32_ma worldFailedRead 0x39008).val.status = c0.VMI_FAILURE ∧
    (v2p_nopae worldFailedRead c0 vmiNoPae 0x39000 0x00801234).val = 0x00456234 ∧
    maReads (v2p_nopae worldFailedRead c0 vmiNoPae 0x39000 0x00801234).trace =
      [Event.vmi_read_32_ma 0x39008, Event.vmi_read_32_ma 0x00123004] := by
  decide

/-- C14, amended. `v2p_nopae` does not inspect the status its reads report:
two memory images whose reads leave the same buffer values give the same run,
whatever statuses they report.  A read, failed or not, ends the translation
with "not resolved" when the value in its output buffer has bit 0 clear: on a
non-PAE instance, if the buffer of the directory read has bit 0 clear,
`v2p_nopae` returns 0 and performs no further read; if it has bit 0 set and
bit 7 clear and the buffer of the leaf read has bit 0 clear, `v2p_nopae`
returns 0 and performs no read after the leaf read. -/
theorem C14_v2p_nopae_ignores_status (w w2 : World) (c : Consts) (vmi : vmi_instance)
    (cr3 vaddr pde pte : Nat)
    (hval : ∀ a, (w.read_32_ma a).value = (w2.read_32_ma a).value)
    (hpae : vmi.pae = 0)
    (hpde : (vmi_read_32_ma w
      ((cr3 &&& 0xFFFFF000) + ((vaddr >>> 22) &&& 0x3FF) * 4)).val.value = pde)
    (hpte : (vmi_read_32_ma w
      ((pde &&& 0xFFFFF000) + ((vaddr >>> 12) &&& 0x3FF) * 4)).val.value = pte) :
    v2p_nopae w c vmi cr3 vaddr = v2p_nopae w2 c vmi cr3 vaddr ∧
    (pde.testBit 0 = false →
      (v2p_nopae w c vmi cr3 vaddr).val = 0 ∧
      maReads (v2p_nopae w c vmi cr3 vaddr).trace =
        [Event.vmi_read_32_ma ((cr3 &&& 0xFFFFF000) + ((vaddr >>> 22) &&& 0x3FF) * 4)]) ∧
    (pde.testBit 0 = true → pde.testBit 7 = false → pte.testBit 0 = false →
      (v2p_nopae w c vmi cr3 vaddr).val = 0 ∧
      maReads (v2p_nopae w c vmi cr3 vaddr).trace =
        [Event.vmi_read_32_ma ((cr3 &&& 0xFFFFF000) + ((vaddr >>> 22) &&& 0x3FF) * 4),
         Event.vmi_read_32_ma ((pde &&& 0xFFFFF000) + ((vaddr >>> 12) &&& 0x3FF) * 4)]) := by
  have hpde2 : u32 (w.read_32_ma
      ((cr3 &&& 0xFFFFF000) + ((vaddr >>> 22) &&& 0x3FF) * 4)).value = pde := hpde
  have hpte2 : u32 (w.read_32_ma
      ((pde &&& 0xFFFFF000) + ((vaddr >>> 12) &&& 0x3FF) * 4)).value = pte := hpte
  refine ⟨?_, ?_, ?_⟩
  · simp only [v2p_nopae, get_pgd_nopae_values w w2 vmi vaddr _ hval,
      get_pte_nopae_values w w2 vmi vaddr _ hval]
  · intro h0
    simp only [v2p_nopae, get_pgd_nopae, vmi_read_32_ma, Run.bind_val, Run.bind_trace,
      Run.pure_val, Run.pure_trace, emit_trace, dbprint_trace,
      pgd_addr_nopae vmi cr3 vaddr hpae, hpde2, entry_present_ulong, h0, Bool.false_eq_true,
      reduceIte]
    simp [maReads_append, maReads_cons, maReads_nil, buffalo_nopae_no_read, Event.isMaRead]
  · intro h0 h7 hl
    simp only [v2p_nopae, get_pgd_nopae, get_pte_nopae, vmi_read_32_ma, Run.bind_val,
      Run.bind_trace, Run.pure_val, Run.pure_trace, emit_trace, dbprint_trace,
      pgd_addr_nopae vmi cr3 vaddr hpae, pte_addr_nopae vmi _ vaddr hpae, hpde2, hpte2,
      entry_present_ulong, page_size_flag_ulong, h0, h7, hl, Bool.false_eq_true, reduceIte]
    simp [maReads_append, maReads_cons, maReads_nil, buffalo_nopae_no_read, Event.isMaRead]

/-- Witness for C14 (amended): the image whose directory read fails with
`0x00123001` in the buffer runs exactly like the image whose read succeeds
with that value; and the directory entry `0x00123C00` (bit 0 clear) ends the
translation with 0 after the single directory read. -/
theorem C14_v2p_nopae_ignores_status_witness :
    v2p_nopae worldFailedRead c0 vmiNoPae 0x39000 0x00801234 =
      v2p_nopae world4k c0 vmiNoPae 0x39000 0x00801234 ∧
    (v2p_nopae worldAbsent c0 vmiNoPae 0x39000 0x00801234).val = 0 ∧
    maReads (v2p_nopae worldAbsent c0 vmiNoPae 0x39000 0x00801234).trace =
      [Event.vmi_read_32_ma 0x39008] :=
  ⟨(C14_v2p_nopae_ignores_status worldFailedRead world4k c0 vmiNoPae 0x39000 0x00801234
      0x00123001 0x00456001
      (by
        intro a
        simp only [worldFailedRead, world4k]
        split_ifs <;> rfl)
      (by decide) rfl rfl).1,
   (C14_v2p_nopae_ignores_status worldAbsent worldAbsent c0 vmiNoPae 0x39000 0x00801234
      0x00123C00 0 (fun _ => rfl) (by decide) rfl rfl).2.1 (by decide)⟩

/-- C12. Windows symbol resolution is a two-stage strategy tried in order: for
every instance with a Windows profile and every symbol name,
`windows_kernel_symbol_to_address` returns `VMI_SUCCESS` with the address of
the KPCR lookup if that lookup succeeds, and then the export table is not
consulted; otherwise, if the export-table lookup at the kernel base
`ntoskrnl_va` succeeds with relative address `rva`, it returns `VMI_SUCCESS`
with the `addr_t` sum `ntoskrnl_va + rva` (that very number when it is below
2^64); otherwise it returns `VMI_FAILURE`.  Whenever the caller supplies a
place for `kernel_base_address`, the value reported there is the profile's
`ntoskrnl_va`, in particular on every success. -/
theorem C12_windows_kernel_symbol_to_address (w : World) (c : Consts) (vmi : vmi_instance)
    (win : windows_instance) (symbol : String) (kernel_base_address : Option Nat)
    (address : Nat) (hd : vmi.os_data = some win) :
    ((windows_kpcr_lookup w symbol).val.status = c.VMI_SUCCESS →
      (windows_kernel_symbol_to_address w c vmi symbol kernel_base_address address).val.status =
        c.VMI_SUCCESS ∧
      (windows_kernel_symbol_to_address w c vmi symbol kernel_base_address address).val.address =
        (windows_kpcr_lookup w symbol).val.value ∧
      (∀ b s, Event.windows_export_to_rva b s ∉
        (windows_kernel_symbol_to_address w c vmi symbol kernel_base_address address).trace)) ∧
    ((windows_kpcr_lookup w symbol).val.status ≠ c.VMI_SUCCESS →
      (windows_export_to_rva w win.ntoskrnl_va symbol).val.status = c.VMI_SUCCESS →
      (windows_kernel_symbol_to_address w c vmi symbol kernel_base_address address).val.status =
        c.VMI_SUCCESS ∧
      (windows_kernel_symbol_to_address w c vmi symbol kernel_base_address address).val.address =
        (win.ntoskrnl_va + (windows_export_to_rva w win.ntoskrnl_va symbol).val.value) % 2 ^ 64 ∧
      (win.ntoskrnl_va + (windows_export_to_rva w win.ntoskrnl_va symbol).val.value < 2 ^ 64 →
        (windows_kernel_symbol_to_address w c vmi symbol kernel_base_address address).val.address =
          win.ntoskrnl_va + (windows_export_to_rva w win.ntoskrnl_va symbol).val.value)) ∧
    ((windows_kpcr_lookup w symbol).val.status ≠ c.VMI_SUCCESS →
      (windows_export_to_rva w win.ntoskrnl_va symbol).val.status ≠ c.VMI_SUCCESS →
      (windows_kernel_symbol_to_address w c vmi symbol kernel_base_address address).val.status =
        c.VMI_FAILURE) ∧
    (∀ v0, kernel_base_address = some v0 →
      (windows_kernel_symbol_to_address w c vmi symbol kernel_base_address
        address).val.kernel_base_address = some win.ntoskrnl_va) := by
  refine ⟨?_, ?_, ?_, ?_⟩
  · intro hk
    have hk2 := eq_true hk.symm
    by_cases hkp : vmi.kpgd = 0
    · simp only [windows_kernel_symbol_to_address, hd, Run.bind_val, Run.bind_trace,
        Run.pure_val, Run.pure_trace, dbprint_trace, hkp, ne_eq, not_true_eq_false, hk2,
        reduceIte]
      refine ⟨trivial, trivial, ?_⟩
      intro b s
      simp [windows_kpcr_lookup, driver_get_vcpureg]
    · simp only [windows_kernel_symbol_to_address, hd, Run.bind_val, Run.bind_trace,
        Run.pure_val, Run.pure_trace, dbprint_trace, hkp, ne_eq, not_false_eq_true, hk2,
        reduceIte]
      refine ⟨trivial, trivial, ?_⟩
      intro b s
      simp [windows_kpcr_lookup]
  · intro hk he
    have hk2 : ¬ c.VMI_SUCCESS = (windows_kpcr_lookup w symbol).val.status := fun h => hk h.symm
    have he2 := eq_true he.symm
    by_cases hkp : vmi.kpgd = 0
    · simp only [windows_kernel_symbol_to_address, hd, Run.bind_val, Run.pure_val, hkp, ne_eq,
        not_true_eq_false, hk2, he2, reduceIte]
      exact ⟨trivial, rfl, fun hlt => Nat.mod_eq_of_lt hlt⟩
    · simp only [windows_kernel_symbol_to_address, hd, Run.bind_val, Run.pure_val, hkp, ne_eq,
        not_false_eq_true, hk2, he2, reduceIte]
      exact ⟨trivial, rfl, fun hlt => Nat.mod_eq_of_lt hlt⟩
  · intro hk he
    have hk2 : ¬ c.VMI_SUCCESS = (windows_kpcr_lookup w symbol).val.status := fun h => hk h.symm
    have he2 : ¬ c.VMI_SUCCESS = (windows_export_to_rva w win.ntoskrnl_va symbol).val.status :=
      fun h => he h.symm
    by_cases hkp : vmi.kpgd = 0
    · simp only [windows_kernel_symbol_to_address, hd, Run.bind_val, Run.pure_val, hkp, ne_eq,
        not_true_eq_false, hk2, he2, reduceIte]
    · simp only [windows_kernel_symbol_to_address, hd, Run.bind_val, Run.pure_val, hkp, ne_eq,
        not_false_eq_true, hk2, he2, reduceIte]
  · intro v0 hv
    subst hv
    by_cases hk : c.VMI_SUCCESS = (windows_kpcr_lookup w symbol).val.status
    · have hk2 := eq_true hk
      by_cases hkp : vmi.kpgd = 0 <;>
      simp only [windows_kernel_symbol_to_address, hd, Run.bind_val, Run.pure_val, hkp, ne_eq,
        not_true_eq_false, not_false_eq_true, hk2, reduceIte]
    · have hk2 := eq_false hk
      by_cases he : c.VMI_SUCCESS = (windows_export_to_rva w win.ntoskrnl_va symbol).val.status
      · have he2 := eq_true he
        by_cases hkp : vmi.kpgd = 0 <;>
        simp only [windows_kernel_symbol_to_address, hd, Run.bind_val, Run.pure_val, hkp, ne_eq,
          not_true_eq_false, not_false_eq_true, hk2, he2, reduceIte]
      · have he2 := eq_false he
        by_cases hkp : vmi.kpgd = 0 <;>
        simp only [windows_kernel_symbol_to_address, hd, Run.bind_val, Run.pure_val, hkp, ne_eq,
          not_true_eq_false, not_false_eq_true, hk2, he2, reduceIte]

/-- Witness for C12: `KdVersionBlock` is answered by the KPCR lookup with
`0x8054C038`; `PsInitialSystemProcess` is answered by the export table with
`0x804D7000 + 0x0008B9B4`; an unknown symbol fails; the reported kernel base
is `0x804D7000`. -/
theorem C12_windows_kernel_symbol_to_address_witness :
    ((windows_kernel_symbol_to_address worldSymbols c0 vmiWin "KdVersionBlock"
        (some 0) 0).val.status = c0.VMI_SUCCESS ∧
      (windows_kernel_symbol_to_address worldSymbols c0 vmiWin "KdVersionBlock"
        (some 0) 0).val.address = 0x8054C038) ∧
    ((windows_kernel_symbol_to_address worldSymbols c0 vmiWin "PsInitialSystemProcess"
        (some 0) 0).val.status = c0.VMI_SUCCESS ∧
      (windows_kernel_symbol_to_address worldSymbols c0 vmiWin "PsInitialSystemProcess"
        (some 0) 0).val.address = 0x805629B4) ∧
    (windows_kernel_symbol_to_address worldSymbols c0 vmiWin "NoSuchSymbol"
        (some 0) 0).val.status = c0.VMI_FAILURE ∧
    (windows_kernel_symbol_to_address worldSymbols c0 vmiWin "PsInitialSystemProcess"
        (some 0) 0).val.kernel_base_address = some 0x804D7000 :=
  ⟨⟨((C12_windows_kernel_symbol_to_address worldSymbols c0 vmiWin winProfile "KdVersionBlock"
        (some 0) 0 rfl).1 (by decide)).1,
    ((C12_windows_kernel_symbol_to_address worldSymbols c0 vmiWin winProfile "KdVersionBlock"
        (some 0) 0 rfl).1 (by decide)).2.1⟩,
   ⟨((C12_windows_kernel_symbol_to_address worldSymbols c0 vmiWin winProfile
        "PsInitialSystemProcess" (some 0) 0 rfl).2.1 (by decide) (by decide)).1,
    ((C12_windows_kernel_symbol_to_address worldSymbols c0 vmiWin winProfile
        "PsInitialSystemProcess" (some 0) 0 rfl).2.1 (by decide) (by decide)).2.2 (by decide)⟩,
   (C12_windows_kernel_symbol_to_address worldSymbols c0 vmiWin winProfile "NoSuchSymbol"
        (some 0) 0 rfl).2.2.1 (by decide) (by decide),
   (C12_windows_kernel_symbol_to_address worldSymbols c0 vmiWin winProfile
        "PsInitialSystemProcess" (some 0) 0 rfl).2.2.2 0 rfl⟩

/-- C19. Translation preserves the page offset: for every instance (PAE or
non-PAE), memory image, CR3 and virtual address, whenever
`vmi_pagetable_lookup` returns a non-zero address, the low 12 bits of the
result equal the low 12 bits of the virtual address; and when the directory
entry used by the walk is a present large-page entry, the low 22 bits
(non-PAE) or the low 21 bits (PAE) of the result equal those of the virtual
address. -/
theorem C19_page_offset_preserved (w : World) (c : Consts) (vmi : vmi_instance)
    (cr3 vaddr : Nat) (hnz : (vmi_pagetable_lookup w c vmi cr3 vaddr).val ≠ 0) :
    (vmi_pagetable_lookup w c vmi cr3 vaddr).val % 2 ^ 12 = vaddr % 2 ^ 12 ∧
    (vmi.pae = 0 → ∀ pde,
      (vmi_read_32_ma w
        ((cr3 &&& 0xFFFFF000) + ((vaddr >>> 22) &&& 0x3FF) * 4)).val.value = pde →
      pde.testBit 0 = true → pde.testBit 7 = true →
      (vmi_pagetable_lookup w c vmi cr3 vaddr).val % 2 ^ 22 = vaddr % 2 ^ 22) ∧
    (vmi.pae ≠ 0 → vaddr < 2 ^ 32 → ∀ pdpe pde,
      (vmi_read_64_ma w ((cr3 &&& 0xFFFFFFE0) + (vaddr >>> 30) * 8)).val.value = pdpe →
      (vmi_read_64_ma w
        (((pdpe &&& 0xFFFFFF000) + ((vaddr >>> 21) &&& 0x1FF) * 8) % 2 ^ 32)).val.value = pde →
      pdpe.testBit 0 = true → pde.testBit 0 = true → pde.testBit 7 = true →
      (vmi_pagetable_lookup w c vmi cr3 vaddr).val % 2 ^ 21 = vaddr % 2 ^ 21) := by
  refine ⟨?_, ?_, ?_⟩
  · rw [vmi_pagetable_lookup_val] at hnz ⊢
    by_cases hpae : vmi.pae = 0
    · simp only [hpae, ne_eq, not_true_eq_false, reduceIte] at hnz ⊢
      rw [v2p_nopae_val] at hnz ⊢
      split_ifs at hnz ⊢ with h0 h7 hl
      · rw [get_large_paddr_nopae vmi vaddr _ hpae]
        exact mod12_of_mod22 _ _ (or_mask_mod _ vaddr 0xFFC00000 0x3FFFFF 22 (by decide) (by decide))
      · exact or_mask_mod _ vaddr 0xFFFFF000 0xFFF 12 (by decide) (by decide)
      · exact absurd rfl hnz
      · exact absurd rfl hnz
    · simp only [hpae, ne_eq, not_false_eq_true, reduceIte] at hnz ⊢
      rw [v2p_pae_val] at hnz ⊢
      split_ifs at hnz ⊢ with ht h0 h7 hl
      · exact absurd rfl hnz
      · rw [get_large_paddr_pae vmi vaddr _ hpae]
        exact mod12_of_mod21 _ _ (or_mask_mod _ vaddr 0xFFE00000 0x1FFFFF 21 (by decide) (by decide))
      · rw [u32_mod12]
        exact or_mask_mod _ vaddr 0xFFFFFF000 0xFFF 12 (by decide) (by decide)
      · exact absurd rfl hnz
      · exact absurd rfl hnz
  · intro hpae pde hpde h0 h7
    rw [vmi_pagetable_lookup_val]
    simp only [hpae, ne_eq, not_true_eq_false, reduceIte]
    rw [v2p_nopae_val, get_pgd_nopae_val w vmi cr3 vaddr hpae, hpde]
    simp only [h0, h7, reduceIte]
    rw [get_large_paddr_nopae vmi vaddr _ hpae]
    exact or_mask_mod _ vaddr 0xFFC00000 0x3FFFFF 22 (by decide) (by decide)
  · intro hpae hv pdpe pde hpdpe hpde ht h0 h7
    rw [vmi_pagetable_lookup_val]
    simp only [hpae, ne_eq, not_false_eq_true, reduceIte]
    rw [v2p_pae_val, get_pdpi_val w cr3 vaddr hv, hpdpe, get_pgd_pae_val w vmi pdpe vaddr hpae,
      hpde]
    simp only [ht, h0, h7, reduceIte, Bool.true_eq_false]
    rw [get_large_paddr_pae vmi vaddr _ hpae]
    exact or_mask_mod _ vaddr 0xFFE00000 0x1FFFFF 21 (by decide) (by decide)

/-- Witness for C19: the 4 KiB image keeps the low 12 bits of `0x00801234`,
the 4 MiB mapping keeps the low 22 bits of `0x00401234`, and the 2 MiB PAE
mapping keeps the low 21 bits of `0x00201000`. -/
theorem C19_page_offset_preserved_witness :
    (vmi_pagetable_lookup world4k c0 vmiNoPae 0x39000 0x00801234).val % 2 ^ 12 = 0x234 ∧
    (vmi_pagetable_lookup worldLarge c0 vmiNoPae 0x39000 0x00401234).val % 2 ^ 22 = 0x001234 ∧
    (vmi_pagetable_lookup worldPaeLarge c0 vmiPae 0x39000 0x00201000).val % 2 ^ 21 = 0x001000 :=
  ⟨(C19_page_offset_preserved world4k c0 vmiNoPae 0x39000 0x00801234 (by decide)).1,
   (C19_page_offset_preserved worldLarge c0 vmiNoPae 0x39000 0x00401234 (by decide)).2.1
      rfl 0x00400081 rfl (by decide) (by decide),
   (C19_page_offset_preserved worldPaeLarge c0 vmiPae 0x39000 0x00201000 (by decide)).2.2
      (by decide) (by decide) 0x0005A001 0x8000000012E00081 rfl rfl
      (by decide) (by decide) (by decide)⟩

/-- C20. PAE results are truncated to 32 bits: on a PAE instance, for every
memory image, CR3 and 32-bit virtual address where the page-directory-pointer,
directory and leaf entries all have bit 0 set and the directory entry has bit
7 clear, `v2p_pae` returns `((pte & 0xFFFFFF000) | (vaddr & 0xFFF)) mod 2^32`,
which is `(pte & 0xFFFFF000) | (vaddr & 0xFFF)` and depends on the leaf entry
only through its low 32 bits, so leaf entries that differ only in frame bits
32..35 give the same result; and the directory and leaf entries are read at
`(base & 0xFFFFFF000) + index` reduced modulo 2^32. -/
theorem C20_v2p_pae_truncated (w : World) (c : Consts) (vmi : vmi_instance)
    (cr3 vaddr pdpe pde pte : Nat) (hpae : vmi.pae ≠ 0) (hv : vaddr < 2 ^ 32)
    (hpdpe : (vmi_read_64_ma w ((cr3 &&& 0xFFFFFFE0) + (vaddr >>> 30) * 8)).val.value = pdpe)
    (htop : pdpe.testBit 0 = true)
    (hpde : (vmi_read_64_ma w
      (((pdpe &&& 0xFFFFFF000) + ((vaddr >>> 21) &&& 0x1FF) * 8) % 2 ^ 32)).val.value = pde)
    (hpresent : pde.testBit 0 = true) (hsmall : pde.testBit 7 = false)
    (hpte : (vmi_read_64_ma w
      (((pde &&& 0xFFFFFF000) + ((vaddr >>> 12) &&& 0x1FF) * 8) % 2 ^ 32)).val.value = pte)
    (hleaf : pte.testBit 0 = true) :
    (v2p_pae w c vmi cr3 vaddr).val = ((pte &&& 0xFFFFFF000) ||| (vaddr &&& 0xFFF)) % 2 ^ 32 ∧
    (v2p_pae w c vmi cr3 vaddr).val = (pte &&& 0xFFFFF000) ||| (vaddr &&& 0xFFF) ∧
    (v2p_pae w c vmi cr3 vaddr).val = ((pte % 2 ^ 32) &&& 0xFFFFF000) ||| (vaddr &&& 0xFFF) ∧
    maReads (v2p_pae w c vmi cr3 vaddr).trace =
      [Event.vmi_read_64_ma ((cr3 &&& 0xFFFFFFE0) + (vaddr >>> 30) * 8),
       Event.vmi_read_64_ma
         (((pdpe &&& 0xFFFFFF000) + ((vaddr >>> 21) &&& 0x1FF) * 8) % 2 ^ 32),
       Event.vmi_read_64_ma
         (((pde &&& 0xFFFFFF000) + ((vaddr >>> 12) &&& 0x1FF) * 8) % 2 ^ 32)] := by
  have hval : (v2p_pae w c vmi cr3 vaddr).val =
      ((pte &&& 0xFFFFFF000) ||| (vaddr &&& 0xFFF)) % 2 ^ 32 := by
    rw [v2p_pae_val, get_pdpi_val w cr3 vaddr hv, hpdpe, get_pgd_pae_val w vmi pdpe vaddr hpae,
      hpde, get_pte_pae_val w vmi pde vaddr hpae, hpte]
    simp only [htop, hpresent, hsmall, hleaf, reduceIte, Bool.true_eq_false, Bool.false_eq_true]
    rfl
  have hpdpe2 : u64 (w.read_64_ma ((cr3 &&& 0xFFFFFFE0) + (vaddr >>> 30) * 8)).value = pdpe :=
    hpdpe
  have hpde2 : u64 (w.read_64_ma
      (((pdpe &&& 0xFFFFFF000) + ((vaddr >>> 21) &&& 0x1FF) * 8) % 2 ^ 32)).value = pde := hpde
  have hpte2 : u64 (w.read_64_ma
      (((pde &&& 0xFFFFFF000) + ((vaddr >>> 12) &&& 0x1FF) * 8) % 2 ^ 32)).value = pte := hpte
  refine ⟨hval, ?_, ?_, ?_⟩
  · rw [hval, paddr_pae_truncated]
  · rw [hval, paddr_pae_truncated, and_mask_mod32 pte 0xFFFFF000 (by decide)]
  · simp only [v2p_pae, get_pdpi, get_pgd_pae, get_pte_pae, vmi_read_64_ma, Run.bind_val,
      Run.bind_trace, Run.pure_val, Run.pure_trace, emit_trace, dbprint_trace,
      pdpi_addr cr3 vaddr hv, hpdpe2, pgd_addr_pae vmi _ vaddr hpae, hpde2,
      pte_addr_pae vmi _ vaddr hpae, hpte2,
      entry_present_ulong, entry_absent_ulong, page_size_flag_ulong, htop, hpresent, hsmall,
      hleaf, Bool.true_eq_false, Bool.false_eq_true, reduceIte]
    simp [maReads, Event.isMaRead]

/-- Witness for C20: the pointer entry `0x10005A001` names a directory above
4 GiB and the directory entry is read at `0x5A020`; the leaf entry
`0xF00456001` names a frame above 4 GiB and the result is `0x00456234`, the
same as for the leaf entry `0x00456001`. -/
theorem C20_v2p_pae_truncated_witness :
    (v2p_pae worldPae4k c0 vmiPae 0x39000 0x00801234).val = 0x00456234 ∧
    maReads (v2p_pae worldPae4k c0 vmiPae 0x39000 0x00801234).trace =
      [Event.vmi_read_64_ma 0x39000, Event.vmi_read_64_ma 0x5A020,
       Event.vmi_read_64_ma 0x00123008] :=
  ⟨(C20_v2p_pae_truncated worldPae4k c0 vmiPae 0x39000 0x00801234 0x10005A001 0x00123001
      0xF00456001 (by decide) (by decide) rfl (by decide) rfl (by decide) (by decide) rfl
      (by decide)).2.1,
   (C20_v2p_pae_truncated worldPae4k c0 vmiPae 0x39000 0x00801234 0x10005A001 0x00123001
      0xF00456001 (by decide) (by decide) rfl (by decide) rfl (by decide) (by decide) rfl
      (by decide)).2.2.2⟩

/-- C11. Pid/base round trip: for every Windows profile, guest memory and
process list (the linkage-field addresses of its objects in traversal order,
each a non-zero `addr_t`, the page-directory bases stored in the objects
pairwise distinct), when the two searches are the walks over this list, for
every pid stored in an object of the list
`windows_pgd_to_pid(windows_pid_to_pgd(pid)) = pid`; both resolvers locate the
same linkage field `l`, and each performs one virtual read, at
`l - tasks_offset + pdbase_offset` and at `l - tasks_offset + pid_offset`. -/
theorem C11_pid_pgd_round_trip (w : World) (c : Consts) (vmi : vmi_instance)
    (win : windows_instance) (links : List Nat) (pid : Int)
    (hd : vmi.os_data = some win)
    (haddr : ∀ l ∈ links, l ≠ 0 ∧ l < 2 ^ 64)
    (hbase : ∀ l1 ∈ links, ∀ l2 ∈ links,
      eprocess_pdbase w win l1 = eprocess_pdbase w win l2 → l1 = l2)
    (hpid : ∃ l ∈ links, eprocess_pid w win l = pid) :
    (windows_pgd_to_pid (withProcessList w win links) c vmi
      (windows_pid_to_pgd (withProcessList w win links) c vmi pid).val).val = pid ∧
    ∃ l ∈ links, eprocess_pid w win l = pid ∧
      (windows_pid_to_pgd (withProcessList w win links) c vmi pid).val =
        eprocess_pdbase w win l ∧
      vaReads (windows_pid_to_pgd (withProcessList w win links) c vmi pid).trace =
        [Event.vmi_read_addr_va (u64i (l - win.tasks_offset + win.pdbase_offset)) 0] ∧
      vaReads (windows_pgd_to_pid (withProcessList w win links) c vmi
          (windows_pid_to_pgd (withProcessList w win links) c vmi pid).val).trace =
        [Event.vmi_read_32_va (u64i (l - win.tasks_offset + win.pid_offset)) 0] := by
  obtain ⟨hA, hApid⟩ := find_eprocess_list_pid_spec w win links pid hpid
  have hu64 : ∀ l ∈ links, u64 l = l := fun l hl => Nat.mod_eq_of_lt (haddr l hl).2
  have hfind : (windows_find_eprocess_list_pid (withProcessList w win links) pid).val =
      find_eprocess_list_pid w win links pid := hu64 _ hA
  have hne : (windows_find_eprocess_list_pid (withProcessList w win links) pid).val ≠ 0 := by
    rw [hfind]
    exact (haddr _ hA).1
  have hadd1 : ∀ l : Nat, (l : Int) + win.pdbase_offset - win.tasks_offset =
      l - win.tasks_offset + win.pdbase_offset := fun l => by ring
  have hadd2 : ∀ l : Nat, (l : Int) + win.pid_offset - win.tasks_offset =
      l - win.tasks_offset + win.pid_offset := fun l => by ring
  have hpgd : windows_pid_to_pgd (withProcessList w win links) c vmi pid =
      ⟨eprocess_pdbase w win (find_eprocess_list_pid w win links pid),
        [Event.enter Fn.windows_pid_to_pgd, Event.windows_find_eprocess_list_pid pid,
         Event.vmi_read_addr_va (u64i (find_eprocess_list_pid w win links pid -
          win.tasks_offset + win.pdbase_offset)) 0]⟩ := by
    rw [windows_pid_to_pgd_found _ c vmi pid win hd hne, hfind, hadd1]
    rfl
  have hex : ∃ l ∈ links, eprocess_pdbase w win l =
      eprocess_pdbase w win (find_eprocess_list_pid w win links pid) := ⟨_, hA, rfl⟩
  obtain ⟨hB, hBbase⟩ := find_eprocess_list_pgd_spec w win links _ hex
  have hsame : find_eprocess_list_pgd w win links
      (eprocess_pdbase w win (find_eprocess_list_pid w win links pid)) =
      find_eprocess_list_pid w win links pid := hbase _ hB _ hA hBbase
  have hfind2 : (windows_find_eprocess_list_pgd (withProcessList w win links)
      (eprocess_pdbase w win (find_eprocess_list_pid w win links pid))).val =
      find_eprocess_list_pid w win links pid := (hu64 _ hB).trans hsame
  have hne2 : (windows_find_eprocess_list_pgd (withProcessList w win links)
      (eprocess_pdbase w win (find_eprocess_list_pid w win links pid))).val ≠ 0 := by
    rw [hfind2]
    exact (haddr _ hA).1
  have hpidr : windows_pgd_to_pid (withProcessList w win links) c vmi
      (eprocess_pdbase w win (find_eprocess_list_pid w win links pid)) =
      ⟨eprocess_pid w win (find_eprocess_list_pid w win links pid),
        [Event.enter Fn.windows_pgd_to_pid,
         Event.windows_find_eprocess_list_pgd
          (eprocess_pdbase w win (find_eprocess_list_pid w win links pid)),
         Event.vmi_read_32_va (u64i (find_eprocess_list_pid w win links pid -
          win.tasks_offset + win.pid_offset)) 0]⟩ := by
    rw [windows_pgd_to_pid_found _ c vmi _ win hd hne2, hfind2, hadd2]
    rfl
  rw [hpgd]
  simp only []
  rw [hpidr]
  refine ⟨hApid, find_eprocess_list_pid w win links pid, hA, hApid, rfl, ?_, ?_⟩
  · simp [vaReads, Event.isVaRead]
  · simp [vaReads, Event.isVaRead]

/-- Witness for C11: in the two-object list, pid 1234 resolves to the base
`0x7A000` and that base resolves back to pid 1234. -/
theorem C11_pid_pgd_round_trip_witness :
    (windows_pid_to_pgd (withProcessList worldList winProfile listLinks) c0 vmiWin 1234).val =
      0x7A000 ∧
    (windows_pgd_to_pid (withProcessList worldList winProfile listLinks) c0 vmiWin
      (windows_pid_to_pgd (withProcessList worldList winProfile listLinks) c0 vmiWin
        1234).val).val = 1234 :=
  ⟨by decide,
   (C11_pid_pgd_round_trip worldList c0 vmiWin winProfile listLinks 1234 rfl
      (by decide) (by decide) ⟨0x81300088, by decide, by decide⟩).1⟩

end LibVMI
